import Mathlib

/-!
# Lumikha services: job creation and follow relationships

A shallow embedding of `src/server/services/jobService.js` and
`src/server/services/userService.js`.

* JavaScript values are the inductive type `JSVal`; a thrown value is a `Thrown`
  (a plain object `{status, message}` carries `some status`, an `Error` carries none).
* The document store, the job collection and the sequence of repository and logger
  calls are the explicit state `World`; every service call maps a `World` to an
  outcome and a new `World`.
* The npm package `validator`, `Date` and the clock are not part of the repository
  sources: the services take them as the parameters `Validator` and `Runtime`.
  `validatorJs` is a concrete instance following the package's published behaviour.
  The package validates strings only: `Validator.isLengthCall` throws a `TypeError`
  for any other value, before the caller's own `typeof` test is reached.
* A save of a user document can be rejected by the store: `SaveFaults` says which of
  the two saves of a relationship call completes. `followUser` and `unfollowUser` are
  the calls on a store whose saves complete.
-/

namespace Lumikha

/-! ## JavaScript values -/

/-- JavaScript values that can reach the services (JSON-shaped). A number is the
rational `numer / (denomPred + 1)`. -/
inductive JSVal where
  | undefined
  | null
  | bool (b : Bool)
  | num (numer : Int) (denomPred : Nat)
  | str (s : String)
  | arr (xs : List JSVal)
  | obj (fields : List (String × JSVal))

/-- Results of the `typeof` operator. -/
inductive JSType where
  | undefined | object | boolean | number | string
  deriving DecidableEq, Repr

/-- The `typeof` operator. -/
def JSVal.typeof : JSVal → JSType
  | .undefined => .undefined
  | .null => .object
  | .bool _ => .boolean
  | .num _ _ => .number
  | .str _ => .string
  | .arr _ => .object
  | .obj _ => .object

/-- The test `param === undefined || param === null`. -/
def JSVal.isAbsent : JSVal → Bool
  | .undefined => true
  | .null => true
  | _ => false

/-- The test `Array.isArray(v)`. -/
def JSVal.isArray : JSVal → Bool
  | .arr _ => true
  | _ => false

/-- The test `Number.isInteger(v)`. -/
def JSVal.isInteger : JSVal → Bool
  | .num n d => n % ((d : Int) + 1) == 0
  | _ => false

/-- The test `v <= 0` on a number (only used after `typeof v === 'number'`). -/
def JSVal.leZero : JSVal → Bool
  | .num n _ => decide (n ≤ 0)
  | _ => false

/-- A thrown value: `{ status, message }` has `status = some _`, while
`new Error(message)` has no status. -/
structure Thrown where
  status : Option Nat
  message : String
  deriving DecidableEq, Repr

/-- Equality of outcomes is decidable. -/
instance Thrown.decidableOutcomeEq {α : Type} [DecidableEq α] : DecidableEq (Except Thrown α)
  | .ok a, .ok b =>
    if h : a = b then isTrue (by rw [h]) else isFalse (by intro h2; cases h2; exact h rfl)
  | .error a, .error b =>
    if h : a = b then isTrue (by rw [h]) else isFalse (by intro h2; cases h2; exact h rfl)
  | .ok _, .error _ => isFalse (by intro h; cases h)
  | .error _, .ok _ => isFalse (by intro h; cases h)

/-! ## External collaborators -/

/-- The functions of the npm package `validator` used by `createJob`. The package
validates strings only, so the length check is a function of a string; what a call
on another value does is `Validator.isLengthCall`. -/
structure Validator where
  isLength : String → Nat → Option Nat → Bool
  escape : JSVal → JSVal
  isAlphanumeric : String → Bool
  isISO8601 : String → Bool
  isMongoId : String → Bool

/-- Modelled from the spec: the name that the `TypeError` of the package validator gives to
a value that is not a string (the name of its constructor; `undefined` and `null` by
their own names). -/
def receivedName : JSVal → String
  | .undefined => "undefined"
  | .null => "null"
  | .bool _ => "Boolean"
  | .num _ _ => "Number"
  | .str _ => "String"
  | .arr _ => "Array"
  | .obj _ => "Object"

/-- Modelled from the spec: the call `validator.isLength(v, { min, max })`. The package
(not among the sources) asserts that its input is a string before anything else: on a
string the call answers the length check, on any other value it throws a `TypeError`,
which is an error without a status. -/
def Validator.isLengthCall (V : Validator) (v : JSVal) (min : Nat) (max : Option Nat) :
    Except Thrown Bool :=
  match v with
  | .str s => .ok (V.isLength s min max)
  | v => .error ⟨none, "Expected a string but received a " ++ receivedName v⟩

/-- The JavaScript runtime facilities used by the services: the string form of a
non-string value, the time value of `new Date(v)` (`none` is an invalid date), and
the current instant `new Date()` in milliseconds. -/
structure Runtime where
  showValue : JSVal → String
  newDate : JSVal → Option Int
  now : Int

/-- The call `v.toString()` (also the string form used by a template literal). -/
def jsToString (R : Runtime) : JSVal → String
  | .str s => s
  | v => R.showValue v

/-- Modelled from the spec: `isAfter(date, dateToCompare)` of the package date-fns, which is
not among the sources; the spec asks for a deadline "strictly later than the current
instant": the first date is strictly later than the second, and the answer is false when
either is an invalid date. -/
def isAfter : Option Int → Option Int → Bool
  | some a, some b => decide (b < a)
  | _, _ => false

/-- Whitespace characters matched by the regular expression class `\s`. -/
def isJsWhitespace (c : Char) : Bool :=
  [9, 10, 11, 12, 13, 32, 0xa0, 0x1680, 0x2028, 0x2029, 0x202f, 0x205f, 0x3000, 0xfeff].contains c.toNat
    || (decide (0x2000 ≤ c.toNat) && decide (c.toNat ≤ 0x200a))

/-- The call `skill.replace(/\s/g, '')`. -/
def removeWhitespace (s : String) : String :=
  String.mk (s.data.filter (fun c => !isJsWhitespace c))

/-! ### A concrete model of the `validator` package -/

/-- Modelled from the spec: the replacement that `escape` of the package validator (not
among the sources) makes for one character, the spec's "escaping markup/special
characters": the eight characters the package documents become HTML entities. -/
def escapeChar (c : Char) : List Char :=
  if c = '&' then "&amp;".data
  else if c = Char.ofNat 34 then "&quot;".data
  else if c = Char.ofNat 39 then "&#x27;".data
  else if c = '<' then "&lt;".data
  else if c = '>' then "&gt;".data
  else if c = '/' then "&#x2F;".data
  else if c = Char.ofNat 92 then "&#x5C;".data
  else if c = Char.ofNat 96 then "&#96;".data
  else [c]

/-- Modelled from the spec: `escape` of the package validator on a string, character by
character. -/
def escapeString (s : String) : String :=
  String.mk (s.data.flatMap escapeChar)

/-- An ASCII letter or digit: the class `[0-9A-Z]` with the flag `i`. -/
def isAsciiAlnum (c : Char) : Bool :=
  (decide ('0' ≤ c) && decide (c ≤ '9')) || (decide ('a' ≤ c) && decide (c ≤ 'z'))
    || (decide ('A' ≤ c) && decide (c ≤ 'Z'))

/-- Modelled from the spec: `isAlphanumeric` of the package validator (not among the
sources), the spec's "alphanumeric check", for the default locale: `/^[0-9A-Z]+$/i`. -/
def isAlphanumericString (s : String) : Bool :=
  !s.data.isEmpty && s.data.all isAsciiAlnum

/-- A hexadecimal digit: the class `[0-9A-F]` with the flag `i`. -/
def isHexDigit (c : Char) : Bool :=
  (decide ('0' ≤ c) && decide (c ≤ '9')) || (decide ('a' ≤ c) && decide (c ≤ 'f'))
    || (decide ('A' ≤ c) && decide (c ≤ 'F'))

/-- One or more hexadecimal digits. -/
def isHexBody (cs : List Char) : Bool :=
  !cs.isEmpty && cs.all isHexDigit

/-- Modelled from the spec: `isHexadecimal` of the package validator (not among the
sources), used by its identifier-format check: `/^(0x|0h)?[0-9A-F]+$/i`. -/
def isHexadecimal (s : String) : Bool :=
  isHexBody s.data ||
    match s.data with
    | '0' :: c :: rest => (c == 'x' || c == 'X' || c == 'h' || c == 'H') && isHexBody rest
    | _ => false

/-- Modelled from the spec: `isMongoId` of the package validator (not among the sources),
the spec's "identifier-format check": hexadecimal and of length 24. -/
def isMongoIdString (s : String) : Bool :=
  isHexadecimal s && s.length == 24

/-- Modelled from the spec: `isLength(s, { min, max })` of the package validator (not among
the sources) on a string, the spec's "string length check": the number of characters lies
in the range. -/
def isLengthValue (s : String) (min : Nat) : Option Nat → Bool
  | some max => decide (min ≤ s.length) && decide (s.length ≤ max)
  | none => decide (min ≤ s.length)

/-- Modelled from the spec: `escape(v)` of the package validator, specified on strings. -/
def escapeValue : JSVal → JSVal
  | .str s => .str (escapeString s)
  | v => v

/-- The `validator` package with its ISO 8601 recogniser left as a parameter. -/
def validatorJs (isISO8601 : String → Bool) : Validator where
  isLength := isLengthValue
  escape := escapeValue
  isAlphanumeric := isAlphanumericString
  isISO8601 := isISO8601
  isMongoId := isMongoIdString

/-! ## The store -/

/-- A user document: the two relationship lists and the remaining fields. -/
structure User where
  following : List String
  followers : List String
  profile : String
  deriving DecidableEq, Repr

/-- A job document as built by `new Job({ ... })` in `createJob`. -/
structure Job where
  title : JSVal
  description : JSVal
  skillsRequired : JSVal
  deadline : Option Int
  postedBy : JSVal
  type : JSVal

/-- Calls made to the repositories and to the logger, in order. -/
inductive Event where
  | log (msg : String)
  | findUser (id : String)
  | saveUser (id : String)
  | saveJob
  deriving DecidableEq, Repr

/-- The document store (users by identifier, persisted jobs) and the calls made so far. -/
structure World where
  users : String → Option User
  jobs : List Job
  trace : List Event

/-- Record a call. -/
def World.emit (W : World) (e : Event) : World :=
  { W with trace := W.trace ++ [e] }

/-! ## jobService.js -/

/-- The list `validJobTypes` of `createJob`. -/
def validJobTypes : List String :=
  [ "Computer Science & IT",
    "Web Design & Graphic Design",
    "Digital Marketing & Social Media",
    "Content Creation & Writing",
    "Photography & Visual Arts",
    "Virtual Assistant & Administrative Support",
    "Transcription & Translation",
    "Consulting & Business Strategy",
    "Sales & Marketing",
    "Voiceovers & Audio Production",
    "Accounting & Financial Services",
    "Legal & Intellectual Property Services",
    "Event Planning & Coordination",
    "Health, Fitness & Wellness",
    "Education & Tutoring" ]

/-- The test `validJobTypes.includes(type)`. -/
def includesType : JSVal → Bool
  | .str s => validJobTypes.contains s
  | _ => false

def msgMissing : String :=
  "Missing required fields: title, description, skillsRequired, deadline, and userId are required."

def msgTitle : String := "Title must be a string between 5 and 100 characters."

def msgDescription : String := "Description must be a string with at least 10 characters."

def msgSkills : String := "SkillsRequired must be an array of alphanumeric strings."

def msgDeadline : String := "Deadline must be a valid future date."

def msgUserId : String := "Invalid userId format."

def msgMaxApplicants : String := "maxApplicants must be a positive integer."

def msgType : String :=
  "Invalid job type. Available types: " ++ String.intercalate ", " validJobTypes

def msgUserNotFound : String := "User not found."

/-- Line 12: some value of `requiredParams` is `undefined` or `null`. -/
def missingRequired (title description skillsRequired deadline maxApplicants userId : JSVal) :
    Bool :=
  [title, description, skillsRequired, deadline, maxApplicants, userId].any JSVal.isAbsent

/-- Line 19, the condition
`!validator.isLength(title, { min: 5, max: 100 }) || typeof title !== 'string'`.
The left operand is evaluated first: when the call throws, the condition has no value and
the error propagates; otherwise the value says whether the title check throws its 400. -/
def titleInvalid (V : Validator) (title : JSVal) : Except Thrown Bool :=
  match V.isLengthCall title 5 (some 100) with
  | .error e => .error e
  | .ok inRange => .ok (!inRange || title.typeof != JSType.string)

/-- Line 25, the condition
`!validator.isLength(description, { min: 10 }) || typeof description !== 'string'`, with
the same order of evaluation as line 19. -/
def descriptionInvalid (V : Validator) (description : JSVal) : Except Thrown Bool :=
  match V.isLengthCall description 10 none with
  | .error e => .error e
  | .ok inRange => .ok (!inRange || description.typeof != JSType.string)

/-- Line 31, the callback of `some`: the entry is not a string or is not alphanumeric
once its whitespace is removed. -/
def skillInvalid (V : Validator) : JSVal → Bool
  | .str s => !V.isAlphanumeric (removeWhitespace s)
  | _ => true

/-- Line 31: the skillsRequired check throws. -/
def skillsInvalid (V : Validator) : JSVal → Bool
  | .arr xs => xs.any (skillInvalid V)
  | _ => true

/-- Line 36: the deadline check throws. -/
def deadlineInvalid (V : Validator) (R : Runtime) (deadline : JSVal) : Bool :=
  !V.isISO8601 (jsToString R deadline) || !isAfter (R.newDate deadline) (some R.now)

/-- Line 41: the userId format check throws. -/
def userIdInvalid (V : Validator) (R : Runtime) (userId : JSVal) : Bool :=
  !V.isMongoId (jsToString R userId)

/-- Lines 46-50: the maxApplicants check throws. -/
def maxApplicantsInvalid (maxApplicants : JSVal) : Bool :=
  match maxApplicants with
  | .undefined => false
  | v => v.typeof != JSType.number || !v.isInteger || v.leZero

/-- Line 70: the type check throws. -/
def typeInvalid (type : JSVal) : Bool :=
  !includesType type

/-- The method `JobService.createJob`: the outcome and the world after the call. -/
def createJob (V : Validator) (R : Runtime)
    (title description skillsRequired deadline maxApplicants type userId : JSVal)
    (W : World) : Except Thrown Unit × World :=
  if missingRequired title description skillsRequired deadline maxApplicants userId then
    (.error ⟨some 400, msgMissing⟩, W)
  else
    match titleInvalid V title with
    | .error e => (.error e, W)
    | .ok true => (.error ⟨some 400, msgTitle⟩, W)
    | .ok false =>
      let title := V.escape title
      match descriptionInvalid V description with
      | .error e => (.error e, W)
      | .ok true => (.error ⟨some 400, msgDescription⟩, W)
      | .ok false =>
        let description := V.escape description
        if skillsInvalid V skillsRequired then
          (.error ⟨some 400, msgSkills⟩, W)
        else if deadlineInvalid V R deadline then
          (.error ⟨some 400, msgDeadline⟩, W)
        else if userIdInvalid V R userId then
          (.error ⟨some 400, msgUserId⟩, W)
        else if maxApplicantsInvalid maxApplicants then
          (.error ⟨some 400, msgMaxApplicants⟩, W)
        else if typeInvalid type then
          (.error ⟨some 400, msgType⟩, W)
        else
          let W1 := W.emit (.findUser (jsToString R userId))
          match W.users (jsToString R userId) with
          | none => (.error ⟨some 404, msgUserNotFound⟩, W1)
          | some _ =>
            let job : Job :=
              { title := title
                description := description
                skillsRequired := skillsRequired
                deadline := R.newDate deadline
                postedBy := userId
                type := type }
            let W2 := { W1.emit .saveJob with jobs := W1.jobs ++ [job] }
            (.ok (), W2.emit (.log ("User " ++ jsToString R userId
              ++ " successfully posted a job")))

/-- All field validations of `createJob` pass (no check of lines 12-72 throws). -/
def fieldsValid (V : Validator) (R : Runtime)
    (title description skillsRequired deadline maxApplicants type userId : JSVal) : Prop :=
  missingRequired title description skillsRequired deadline maxApplicants userId = false ∧
  titleInvalid V title = .ok false ∧ descriptionInvalid V description = .ok false ∧
  skillsInvalid V skillsRequired = false ∧ deadlineInvalid V R deadline = false ∧
  userIdInvalid V R userId = false ∧ maxApplicantsInvalid maxApplicants = false ∧
  typeInvalid type = false

/-! ## userService.js -/

/-- An identifier argument of the relationship service: a user identifier, or an
absent argument. -/
inductive IdArg where
  | undefined
  | null
  | id (s : String)
  deriving DecidableEq, Repr

/-- The string form of an argument inside a template literal. -/
def IdArg.show : IdArg → String
  | .undefined => "undefined"
  | .null => "null"
  | .id s => s

/-- Modelled from the spec: `findMissingParams` of `utils/paramsValidator`, which is not
among the sources. The spec calls it the "is any required field missing" check and lets
the call fail "if either identifier is missing": the result is truthy exactly when some
parameter is absent. -/
def findMissingParams (params : List IdArg) : Bool :=
  params.any fun p =>
    match p with
    | .id _ => false
    | _ => true

/-- The call `User.findById(id)`: the stored document, if any. -/
def World.findById (W : World) : IdArg → Option User
  | .id s => W.users s
  | _ => none

/-- Which of the two saves of a relationship call the store rejects: `none` is a save that
completes, `some msg` a save that is rejected with an error of that message. `user` is
`user.save()`, `target` is the save of the other document. -/
structure SaveFaults where
  user : Option String
  target : Option String
  deriving DecidableEq, Repr

/-- The call `user.save()` after `user.following` was modified: the call is made, and when
the store completes it the stored document `id` receives the new `following` list; a
rejected save writes nothing. -/
def World.saveFollowing (W : World) (fault : Option String) (id : String)
    (l : List String) : World :=
  match fault with
  | none =>
    { W with
      users := fun k => if k = id then (W.users k).map (fun r => { r with following := l })
        else W.users k
      trace := W.trace ++ [.saveUser id] }
  | some _ => { W with trace := W.trace ++ [.saveUser id] }

/-- The call `target.save()` after `target.followers` was modified: the call is made, and
when the store completes it the stored document `id` receives the new `followers` list; a
rejected save writes nothing. -/
def World.saveFollowers (W : World) (fault : Option String) (id : String)
    (l : List String) : World :=
  match fault with
  | none =>
    { W with
      users := fun k => if k = id then (W.users k).map (fun r => { r with followers := l })
        else W.users k
      trace := W.trace ++ [.saveUser id] }
  | some _ => { W with trace := W.trace ++ [.saveUser id] }

/-- The value of `await Promise.all([user.save(), target.save()])`: nothing is thrown when
both saves complete; otherwise the error of a rejected save is thrown (of `user.save()`
when both are rejected), an error without a status. -/
def awaitSaves (F : SaveFaults) : Option Thrown :=
  match F.user, F.target with
  | none, none => none
  | some m, _ => some ⟨none, m⟩
  | none, some m => some ⟨none, m⟩

def msgIdNotFound : String := "Failed to follow, user id is not found"

def msgUserMissing : String := "Failed to follow, user is not found"

def msgAlreadyFollowing : String := "Failed to follow user: Already following"

def msgNotFollowing : String := "Failed to unfollow user: You are not following them"

/-- The `try` block of `UserService.followUser` (lines 8-34), on a store that treats the
two saves as `F` says. -/
def followUserTryWith (F : SaveFaults) (userId followId : IdArg) (W : World) :
    Except Thrown Unit × World :=
  let W0 := W.emit (.log ("Follow request received by " ++ userId.show ++ " for " ++ followId.show))
  if findMissingParams [userId, followId] then
    (.error ⟨some 400, msgIdNotFound⟩, W0)
  else
    let W1 := (W0.emit (.findUser followId.show)).emit (.findUser userId.show)
    match W.findById followId, W.findById userId with
    | some userToBeFollowed, some user =>
      if user.following.contains followId.show
          && userToBeFollowed.followers.contains userId.show then
        (.error ⟨some 400, msgAlreadyFollowing⟩, W1)
      else
        let W2 := W1.saveFollowing F.user userId.show (user.following ++ [followId.show])
        let W3 := W2.saveFollowers F.target followId.show
          (userToBeFollowed.followers ++ [userId.show])
        match awaitSaves F with
        | some e => (.error e, W3)
        | none =>
          (.ok (), W3.emit (.log ("User " ++ userId.show ++ " successfully followed user "
            ++ followId.show)))
    | _, _ => (.error ⟨some 400, msgUserMissing⟩, W1)

/-- The `try` block of `UserService.followUser` on a store whose saves complete. -/
def followUserTry (userId followId : IdArg) (W : World) : Except Thrown Unit × World :=
  followUserTryWith ⟨none, none⟩ userId followId W

/-- The `catch` clause `throw new Error(error.message)`. -/
def rethrowAsError (r : Except Thrown Unit × World) : Except Thrown Unit × World :=
  match r with
  | (.error e, W) => (.error ⟨none, e.message⟩, W)
  | (.ok v, W) => (.ok v, W)

/-- The method `UserService.followUser`, on a store that treats the two saves as `F`
says. -/
def followUserWith (F : SaveFaults) (userId followId : IdArg) (W : World) :
    Except Thrown Unit × World :=
  rethrowAsError (followUserTryWith F userId followId W)

/-- The method `UserService.followUser` on a store whose saves complete. -/
def followUser (userId followId : IdArg) (W : World) : Except Thrown Unit × World :=
  rethrowAsError (followUserTry userId followId W)

/-- The `try` block of `UserService.unfollowUser` (lines 42-69), on a store that treats
the two saves as `F` says. -/
def unfollowUserTryWith (F : SaveFaults) (userId unfollowId : IdArg) (W : World) :
    Except Thrown Unit × World :=
  let W0 := W.emit (.log ("Unfollow request received by " ++ userId.show ++ " for "
    ++ unfollowId.show))
  if findMissingParams [unfollowId, userId] then
    (.error ⟨some 400, msgIdNotFound⟩, W0)
  else
    let W1 := (W0.emit (.findUser unfollowId.show)).emit (.findUser userId.show)
    match W.findById unfollowId, W.findById userId with
    | some userToBeUnfollowed, some user =>
      if !user.following.contains unfollowId.show
          && !userToBeUnfollowed.followers.contains userId.show then
        (.error ⟨some 400, msgNotFollowing⟩, W1)
      else
        let W2 := W1.saveFollowing F.user userId.show
          (user.following.filter (fun id => id != unfollowId.show))
        let W3 := W2.saveFollowers F.target unfollowId.show
          (userToBeUnfollowed.followers.filter (fun id => id != userId.show))
        match awaitSaves F with
        | some e => (.error e, W3)
        | none =>
          (.ok (), W3.emit (.log ("User " ++ userId.show ++ " successfully unfollowed user "
            ++ unfollowId.show)))
    | _, _ => (.error ⟨some 400, msgUserMissing⟩, W1)

/-- The `try` block of `UserService.unfollowUser` on a store whose saves complete. -/
def unfollowUserTry (userId unfollowId : IdArg) (W : World) : Except Thrown Unit × World :=
  unfollowUserTryWith ⟨none, none⟩ userId unfollowId W

/-- The method `UserService.unfollowUser`, on a store that treats the two saves as `F`
says. -/
def unfollowUserWith (F : SaveFaults) (userId unfollowId : IdArg) (W : World) :
    Except Thrown Unit × World :=
  rethrowAsError (unfollowUserTryWith F userId unfollowId W)

/-- The method `UserService.unfollowUser` on a store whose saves complete. -/
def unfollowUser (userId unfollowId : IdArg) (W : World) : Except Thrown Unit × World :=
  rethrowAsError (unfollowUserTry userId unfollowId W)

/-! ## Vocabulary of the claims -/

/-- The number of characters of a string value. -/
def JSVal.strLength : JSVal → Option Nat
  | .str s => some s.length
  | _ => none

/-- The message names every valid job type. -/
def enumeratesTypes (msg : String) : Prop :=
  ∀ l ∈ validJobTypes, l.data <:+: msg.data

/-- Spec wording for a valid skill entry: a string that is alphanumeric once its whitespace
is removed, that is, at least one character remains and each remaining character is an
ASCII letter or digit. -/
def alphanumericSkill : JSVal → Prop
  | .str s =>
    (removeWhitespace s).data ≠ [] ∧ ∀ c ∈ (removeWhitespace s).data, isAsciiAlnum c = true
  | _ => False

/-- An argument that carries no identifier. -/
def IdArg.isMissing : IdArg → Bool
  | .id _ => false
  | _ => true

/-- The document `r` stored under `k`, after `f` is appended to the following list of `u`
and `u` to the followers list of `f`. -/
def followedDoc (u f k : String) (r : User) : User :=
  { following := if k = u then r.following ++ [f] else r.following
    followers := if k = f then r.followers ++ [u] else r.followers
    profile := r.profile }

/-- The document `r` stored under `k`, after every entry equal to `f` is removed from the
following list of `u` and every entry equal to `u` from the followers list of `f`. -/
def unfollowedDoc (u f k : String) (r : User) : User :=
  { following := if k = u then r.following.filter (fun id => id != f) else r.following
    followers := if k = f then r.followers.filter (fun id => id != u) else r.followers
    profile := r.profile }

/-- Spec wording of the mutual-list condition: for all stored users A and B, B occurs in
the following list of A exactly when A occurs in the followers list of B. -/
def mutualLists (users : String → Option User) : Prop :=
  ∀ a b ra rb, users a = some ra → users b = some rb →
    (b ∈ ra.following ↔ a ∈ rb.followers)

/-- Spec wording of the title rule: the title is violated unless it is a string whose
length check for 5 to 100 holds. -/
def titleRuleViolated (V : Validator) : JSVal → Bool
  | .str s => !V.isLength s 5 (some 100)
  | _ => true

/-- Spec wording of the description rule: the description is violated unless it is a
string whose length check for at least 10 holds. -/
def descriptionRuleViolated (V : Validator) : JSVal → Bool
  | .str s => !V.isLength s 10 none
  | _ => true

/-- Spec wording of the validation order: the rules of `createJob` in the order
missing-fields, title, description, skillsRequired, deadline, userId format,
maxApplicants, type, user existence, each with whether the call violates it and the
error it raises. -/
def ruleViolations (V : Validator) (R : Runtime)
    (title description skillsRequired deadline maxApplicants type userId : JSVal)
    (W : World) : List (Bool × Thrown) :=
  [ (missingRequired title description skillsRequired deadline maxApplicants userId,
      ⟨some 400, msgMissing⟩),
    (titleRuleViolated V title, ⟨some 400, msgTitle⟩),
    (descriptionRuleViolated V description, ⟨some 400, msgDescription⟩),
    (skillsInvalid V skillsRequired, ⟨some 400, msgSkills⟩),
    (deadlineInvalid V R deadline, ⟨some 400, msgDeadline⟩),
    (userIdInvalid V R userId, ⟨some 400, msgUserId⟩),
    (maxApplicantsInvalid maxApplicants, ⟨some 400, msgMaxApplicants⟩),
    (typeInvalid type, ⟨some 400, msgType⟩),
    ((W.users (jsToString R userId)).isNone, ⟨some 404, msgUserNotFound⟩) ]

/-- The error of the earliest violated rule, if any rule is violated. -/
def earliestViolation (V : Validator) (R : Runtime)
    (title description skillsRequired deadline maxApplicants type userId : JSVal)
    (W : World) : Option Thrown :=
  ((ruleViolations V R title description skillsRequired deadline maxApplicants type userId
    W).find? (fun p => p.1)).map (fun p => p.2)

/-- The outcome that raises the given error, or returns normally when there is none. -/
def raiseOrReturn : Option Thrown → Except Thrown Unit
  | some e => .error e
  | none => .ok ()

instance fieldsValid.decidable (V : Validator) (R : Runtime)
    (title description skillsRequired deadline maxApplicants type userId : JSVal) :
    Decidable (fieldsValid V R title description skillsRequired deadline maxApplicants type
      userId) := by
  unfold fieldsValid
  infer_instance

instance enumeratesTypes.decidable (msg : String) : Decidable (enumeratesTypes msg) := by
  unfold enumeratesTypes
  infer_instance

instance alphanumericSkill.decidable (e : JSVal) : Decidable (alphanumericSkill e) := by
  cases e <;> (unfold alphanumericSkill; infer_instance)

/-! ## Sample environment -/

/-- A recogniser that accepts two ISO 8601 calendar dates. -/
def sampleIsoDates (s : String) : Bool :=
  s == "2030-01-01" || s == "2020-01-01"

/-- A runtime whose clock reads 2026-11-06T01:37:00Z and which parses the two sample
dates to their UTC midnights. -/
def sampleRuntime : Runtime where
  showValue := fun _ => "[object Object]"
  newDate := fun v =>
    match v with
    | .str s =>
      if s = "2030-01-01" then some 1893456000000
      else if s = "2020-01-01" then some 1577836800000
      else none
    | _ => none
  now := 1793929020000

/-- A store with one user and no job. -/
def sampleWorld : World where
  users := fun id => if id = "64b7f0c2a1d3e4f5a6b7c8d9" then some ⟨[], [], "ana"⟩ else none
  jobs := []
  trace := []

/-- A store with users `u1` and `u2`, neither following the other. -/
def pairWorld : World where
  users := fun id =>
    if id = "u1" then some ⟨[], [], "ana"⟩
    else if id = "u2" then some ⟨[], [], "ben"⟩
    else none
  jobs := []
  trace := []

/-- A store in which `u1` follows `u2` and both sides record it. -/
def followingWorld : World where
  users := fun id =>
    if id = "u1" then some ⟨["u2"], [], "ana"⟩
    else if id = "u2" then some ⟨[], ["u1"], "ben"⟩
    else none
  jobs := []
  trace := []

/-- A store in which `u1` follows `u2` on both sides and the following list of `u1` holds
`u2` twice. -/
def duplicateWorld : World where
  users := fun id =>
    if id = "u1" then some ⟨["u2", "u2"], [], "ana"⟩
    else if id = "u2" then some ⟨[], ["u1"], "ben"⟩
    else none
  jobs := []
  trace := []

/-- A store in which only the following list of `u1` records that `u1` follows `u2`. -/
def oneSidedWorld : World where
  users := fun id =>
    if id = "u1" then some ⟨["u2"], [], "ana"⟩
    else if id = "u2" then some ⟨[], [], "ben"⟩
    else none
  jobs := []
  trace := []

/-! ## Lemmas on createJob -/

/-- On a string the title condition has a value: no `TypeError` is thrown. -/
theorem titleInvalid_of_string (V : Validator) (s : String) :
    titleInvalid V (.str s) = .ok (!V.isLength s 5 (some 100)) := by
  simp [titleInvalid, Validator.isLengthCall, JSVal.typeof]

/-- On a string the description condition has a value: no `TypeError` is thrown. -/
theorem descriptionInvalid_of_string (V : Validator) (s : String) :
    descriptionInvalid V (.str s) = .ok (!V.isLength s 10 none) := by
  simp [descriptionInvalid, Validator.isLengthCall, JSVal.typeof]

/-- The title condition throws exactly on a value that is not a string, and what it throws
has no status. -/
theorem titleInvalid_error (V : Validator) (title : JSVal) (e : Thrown)
    (h : titleInvalid V title = .error e) :
    title.typeof ≠ JSType.string ∧ e.status = none := by
  cases title <;> simp [titleInvalid, Validator.isLengthCall, JSVal.typeof] at h ⊢
  all_goals (subst h; rfl)

/-- The description condition throws exactly on a value that is not a string, and what it
throws has no status. -/
theorem descriptionInvalid_error (V : Validator) (description : JSVal) (e : Thrown)
    (h : descriptionInvalid V description = .error e) :
    description.typeof ≠ JSType.string ∧ e.status = none := by
  cases description <;> simp [descriptionInvalid, Validator.isLengthCall, JSVal.typeof] at h ⊢
  all_goals (subst h; rfl)

/-- The title condition is false only for a string that passes the length check. -/
theorem titleInvalid_ok_false (V : Validator) (title : JSVal)
    (h : titleInvalid V title = .ok false) :
    ∃ s, title = .str s ∧ V.isLength s 5 (some 100) = true := by
  cases title <;> simp [titleInvalid, Validator.isLengthCall, JSVal.typeof] at h ⊢
  exact h

/-- The description condition is false only for a string that passes the length check. -/
theorem descriptionInvalid_ok_false (V : Validator) (description : JSVal)
    (h : descriptionInvalid V description = .ok false) :
    ∃ s, description = .str s ∧ V.isLength s 10 none = true := by
  cases description <;> simp [descriptionInvalid, Validator.isLengthCall, JSVal.typeof] at h ⊢
  exact h

/-- The checks of `createJob` are tried in source order; the first that throws decides
the outcome, a `TypeError` of a length check included, and only a call that passes them
all reaches the store. -/
theorem createJob_cases (V : Validator) (R : Runtime)
    (title description skillsRequired deadline maxApplicants type userId : JSVal) (W : World) :
    (missingRequired title description skillsRequired deadline maxApplicants userId = true ∧
      createJob V R title description skillsRequired deadline maxApplicants type userId W
        = (.error ⟨some 400, msgMissing⟩, W)) ∨
    (∃ e,
      (missingRequired title description skillsRequired deadline maxApplicants userId = false ∧
        titleInvalid V title = .error e) ∧
      createJob V R title description skillsRequired deadline maxApplicants type userId W
        = (.error e, W)) ∨
    ((missingRequired title description skillsRequired deadline maxApplicants userId = false ∧
        titleInvalid V title = .ok true) ∧
      createJob V R title description skillsRequired deadline maxApplicants type userId W
        = (.error ⟨some 400, msgTitle⟩, W)) ∨
    (∃ e,
      (missingRequired title description skillsRequired deadline maxApplicants userId = false ∧
        titleInvalid V title = .ok false ∧ descriptionInvalid V description = .error e) ∧
      createJob V R title description skillsRequired deadline maxApplicants type userId W
        = (.error e, W)) ∨
    ((missingRequired title description skillsRequired deadline maxApplicants userId = false ∧
        titleInvalid V title = .ok false ∧ descriptionInvalid V description = .ok true) ∧
      createJob V R title description skillsRequired deadline maxApplicants type userId W
        = (.error ⟨some 400, msgDescription⟩, W)) ∨
    ((missingRequired title description skillsRequired deadline maxApplicants userId = false ∧
        titleInvalid V title = .ok false ∧ descriptionInvalid V description = .ok false ∧
        skillsInvalid V skillsRequired = true) ∧
      createJob V R title description skillsRequired deadline maxApplicants type userId W
        = (.error ⟨some 400, msgSkills⟩, W)) ∨
    ((missingRequired title description skillsRequired deadline maxApplicants userId = false ∧
        titleInvalid V title = .ok false ∧ descriptionInvalid V description = .ok false ∧
        skillsInvalid V skillsRequired = false ∧ deadlineInvalid V R deadline = true) ∧
      createJob V R title description skillsRequired deadline maxApplicants type userId W
        = (.error ⟨some 400, msgDeadline⟩, W)) ∨
    ((missingRequired title description skillsRequired deadline maxApplicants userId = false ∧
        titleInvalid V title = .ok false ∧ descriptionInvalid V description = .ok false ∧
        skillsInvalid V skillsRequired = false ∧ deadlineInvalid V R deadline = false ∧
        userIdInvalid V R userId = true) ∧
      createJob V R title description skillsRequired deadline maxApplicants type userId W
        = (.error ⟨some 400, msgUserId⟩, W)) ∨
    ((missingRequired title description skillsRequired deadline maxApplicants userId = false ∧
        titleInvalid V title = .ok false ∧ descriptionInvalid V description = .ok false ∧
        skillsInvalid V skillsRequired = false ∧ deadlineInvalid V R deadline = false ∧
        userIdInvalid V R userId = false ∧ maxApplicantsInvalid maxApplicants = true) ∧
      createJob V R title description skillsRequired deadline maxApplicants type userId W
        = (.error ⟨some 400, msgMaxApplicants⟩, W)) ∨
    ((missingRequired title description skillsRequired deadline maxApplicants userId = false ∧
        titleInvalid V title = .ok false ∧ descriptionInvalid V description = .ok false ∧
        skillsInvalid V skillsRequired = false ∧ deadlineInvalid V R deadline = false ∧
        userIdInvalid V R userId = false ∧ maxApplicantsInvalid maxApplicants = false ∧
        typeInvalid type = true) ∧
      createJob V R title description skillsRequired deadline maxApplicants type userId W
        = (.error ⟨some 400, msgType⟩, W)) ∨
    ((fieldsValid V R title description skillsRequired deadline maxApplicants type userId ∧
        W.users (jsToString R userId) = none) ∧
      createJob V R title description skillsRequired deadline maxApplicants type userId W
        = (.error ⟨some 404, msgUserNotFound⟩, W.emit (.findUser (jsToString R userId)))) ∨
    ((fieldsValid V R title description skillsRequired deadline maxApplicants type userId ∧
        (W.users (jsToString R userId)).isSome = true) ∧
      createJob V R title description skillsRequired deadline maxApplicants type userId W
        = (.ok (),
            { users := W.users
              jobs := W.jobs ++ [{ title := V.escape title
                                   description := V.escape description
                                   skillsRequired := skillsRequired
                                   deadline := R.newDate deadline
                                   postedBy := userId
                                   type := type }]
              trace := W.trace ++ [.findUser (jsToString R userId), .saveJob,
                .log ("User " ++ jsToString R userId ++ " successfully posted a job")] })) := by
  by_cases h1 : missingRequired title description skillsRequired deadline maxApplicants userId
      = true
  · exact Or.inl ⟨h1, by simp [createJob, h1]⟩
  have h1f : missingRequired title description skillsRequired deadline maxApplicants userId
      = false := by simpa using h1
  refine Or.inr ?_
  cases ht : titleInvalid V title with
  | error e => exact Or.inl ⟨e, ⟨h1f, rfl⟩, by simp [createJob, h1f, ht]⟩
  | ok bt =>
  cases bt with
  | true => exact Or.inr (Or.inl ⟨⟨h1f, rfl⟩, by simp [createJob, h1f, ht]⟩)
  | false =>
  refine Or.inr (Or.inr ?_)
  cases hd : descriptionInvalid V description with
  | error e => exact Or.inl ⟨e, ⟨h1f, rfl, rfl⟩, by simp [createJob, h1f, ht, hd]⟩
  | ok bd =>
  cases bd with
  | true => exact Or.inr (Or.inl ⟨⟨h1f, rfl, rfl⟩, by simp [createJob, h1f, ht, hd]⟩)
  | false =>
  refine Or.inr (Or.inr ?_)
  by_cases h4 : skillsInvalid V skillsRequired = true
  · exact Or.inl ⟨⟨h1f, rfl, rfl, h4⟩, by simp [createJob, h1f, ht, hd, h4]⟩
  have h4f : skillsInvalid V skillsRequired = false := by simpa using h4
  refine Or.inr ?_
  by_cases h5 : deadlineInvalid V R deadline = true
  · exact Or.inl ⟨⟨h1f, rfl, rfl, h4f, h5⟩, by simp [createJob, h1f, ht, hd, h4f, h5]⟩
  have h5f : deadlineInvalid V R deadline = false := by simpa using h5
  refine Or.inr ?_
  by_cases h6 : userIdInvalid V R userId = true
  · exact Or.inl ⟨⟨h1f, rfl, rfl, h4f, h5f, h6⟩,
      by simp [createJob, h1f, ht, hd, h4f, h5f, h6]⟩
  have h6f : userIdInvalid V R userId = false := by simpa using h6
  refine Or.inr ?_
  by_cases h7 : maxApplicantsInvalid maxApplicants = true
  · exact Or.inl ⟨⟨h1f, rfl, rfl, h4f, h5f, h6f, h7⟩,
      by simp [createJob, h1f, ht, hd, h4f, h5f, h6f, h7]⟩
  have h7f : maxApplicantsInvalid maxApplicants = false := by simpa using h7
  refine Or.inr ?_
  by_cases h8 : typeInvalid type = true
  · exact Or.inl ⟨⟨h1f, rfl, rfl, h4f, h5f, h6f, h7f, h8⟩,
      by simp [createJob, h1f, ht, hd, h4f, h5f, h6f, h7f, h8]⟩
  have h8f : typeInvalid type = false := by simpa using h8
  refine Or.inr ?_
  have hv : fieldsValid V R title description skillsRequired deadline maxApplicants type
      userId := ⟨h1f, ht, hd, h4f, h5f, h6f, h7f, h8f⟩
  cases hu : W.users (jsToString R userId) with
  | none =>
    exact Or.inl ⟨⟨hv, rfl⟩, by simp [createJob, h1f, ht, hd, h4f, h5f, h6f, h7f, h8f, hu]⟩
  | some r =>
    exact Or.inr ⟨⟨hv, rfl⟩,
      by simp [createJob, h1f, ht, hd, h4f, h5f, h6f, h7f, h8f, hu, World.emit]⟩

/-- A failed `createJob` has status 400 or 404, or is the status-less `TypeError` of a
length check, and persists nothing. -/
theorem createJob_error_shape (V : Validator) (R : Runtime)
    (title description skillsRequired deadline maxApplicants type userId : JSVal) (W : World)
    (e : Thrown)
    (h : (createJob V R title description skillsRequired deadline maxApplicants type userId W).1
      = .error e) :
    (e.status = some 400 ∨ e.status = some 404 ∨ e.status = none) ∧
    (createJob V R title description skillsRequired deadline maxApplicants type userId W).2.jobs
      = W.jobs ∧
    (createJob V R title description skillsRequired deadline maxApplicants type userId W).2.users
      = W.users := by
  rcases createJob_cases V R title description skillsRequired deadline maxApplicants type userId W
    with ⟨hx, hc⟩ | ⟨e1, hx, hc⟩ | ⟨hx, hc⟩ | ⟨e1, hx, hc⟩ | ⟨hx, hc⟩ | ⟨hx, hc⟩ | ⟨hx, hc⟩ |
      ⟨hx, hc⟩ | ⟨hx, hc⟩ | ⟨hx, hc⟩ | ⟨hx, hc⟩ | ⟨hx, hc⟩
  all_goals
    rw [hc] at h ⊢
    simp only [Except.error.injEq, reduceCtorEq] at h
    try subst h
  · simp
  · exact ⟨Or.inr (Or.inr (titleInvalid_error V title _ hx.2).2), rfl, rfl⟩
  · simp
  · exact ⟨Or.inr (Or.inr (descriptionInvalid_error V description _ hx.2.2).2), rfl, rfl⟩
  all_goals simp [World.emit]

/-- A required field that is absent makes the missing-fields test true. -/
theorem missingRequired_of_absent
    (title description skillsRequired deadline maxApplicants userId : JSVal)
    (h : title.isAbsent = true ∨ description.isAbsent = true ∨ skillsRequired.isAbsent = true ∨
      deadline.isAbsent = true ∨ maxApplicants.isAbsent = true ∨ userId.isAbsent = true) :
    missingRequired title description skillsRequired deadline maxApplicants userId = true := by
  simp only [missingRequired, List.any_cons, List.any_nil, Bool.or_false, Bool.or_eq_true]
  tauto

/-- With the required fields present, a title that is a string or absent gives the title
condition a value. -/
theorem titleInvalid_value (V : Validator)
    (title description skillsRequired deadline maxApplicants userId : JSVal)
    (hT : title.typeof = JSType.string ∨ title.isAbsent = true)
    (hm : missingRequired title description skillsRequired deadline maxApplicants userId
      = false) :
    ∃ b, titleInvalid V title = .ok b := by
  rcases hT with h | h
  · cases title <;> simp [JSVal.typeof] at h
    exact ⟨_, titleInvalid_of_string V _⟩
  · rw [missingRequired_of_absent _ _ _ _ _ _ (Or.inl h)] at hm
    cases hm

/-- With the required fields present, a description that is a string or absent gives the
description condition a value. -/
theorem descriptionInvalid_value (V : Validator)
    (title description skillsRequired deadline maxApplicants userId : JSVal)
    (hD : description.typeof = JSType.string ∨ description.isAbsent = true)
    (hm : missingRequired title description skillsRequired deadline maxApplicants userId
      = false) :
    ∃ b, descriptionInvalid V description = .ok b := by
  rcases hD with h | h
  · cases description <;> simp [JSVal.typeof] at h
    exact ⟨_, descriptionInvalid_of_string V _⟩
  · rw [missingRequired_of_absent _ _ _ _ _ _ (Or.inr (Or.inl h))] at hm
    cases hm

/-- The defect of line 19: with the required fields present, a title that is not a string
makes `createJob` fail with the `TypeError` of `validator.isLength`, which has no status,
whatever the other arguments are; the `typeof` test and the 400 of the title branch are
never reached. -/
theorem createJob_non_string_title (V : Validator) (R : Runtime)
    (title description skillsRequired deadline maxApplicants type userId : JSVal) (W : World)
    (hm : missingRequired title description skillsRequired deadline maxApplicants userId
      = false)
    (hT : title.typeof ≠ JSType.string) :
    createJob V R title description skillsRequired deadline maxApplicants type userId W
      = (.error ⟨none, "Expected a string but received a " ++ receivedName title⟩, W) := by
  have ht : titleInvalid V title
      = .error ⟨none, "Expected a string but received a " ++ receivedName title⟩ := by
    cases title <;> simp [titleInvalid, Validator.isLengthCall, JSVal.typeof] at hT ⊢
  simp [createJob, hm, ht]

/-- The defect of line 25: with the required fields present and a valid title, a
description that is not a string makes `createJob` fail with the `TypeError` of
`validator.isLength`, which has no status. -/
theorem createJob_non_string_description (V : Validator) (R : Runtime)
    (title description skillsRequired deadline maxApplicants type userId : JSVal) (W : World)
    (hm : missingRequired title description skillsRequired deadline maxApplicants userId
      = false)
    (ht : titleInvalid V title = .ok false)
    (hD : description.typeof ≠ JSType.string) :
    createJob V R title description skillsRequired deadline maxApplicants type userId W
      = (.error ⟨none, "Expected a string but received a " ++ receivedName description⟩,
          W) := by
  have hd : descriptionInvalid V description
      = .error ⟨none, "Expected a string but received a " ++ receivedName description⟩ := by
    cases description <;>
      simp [descriptionInvalid, Validator.isLengthCall, JSVal.typeof] at hD ⊢
  simp [createJob, hm, ht, hd]

/-! ## Claims on createJob -/

/-- C1: when every required field is present and the title is a string, a title shorter
than 5 or longer than 100 characters makes `createJob` fail with status 400 (the title
message); a title of 5 to 100 characters, with every other field valid and the user
present in the store, makes `createJob` succeed. -/
theorem createJob_title_length (iso : String → Bool) (R : Runtime) (W : World) (t : String)
    (description skillsRequired deadline maxApplicants type userId : JSVal)
    (hpresent : missingRequired (.str t) description skillsRequired deadline maxApplicants
      userId = false) :
    ((t.length < 5 ∨ 100 < t.length) →
      (createJob (validatorJs iso) R (.str t) description skillsRequired deadline maxApplicants
        type userId W).1 = .error ⟨some 400, msgTitle⟩) ∧
    ((5 ≤ t.length ∧ t.length ≤ 100) →
      descriptionInvalid (validatorJs iso) description = .ok false →
      skillsInvalid (validatorJs iso) skillsRequired = false →
      deadlineInvalid (validatorJs iso) R deadline = false →
      userIdInvalid (validatorJs iso) R userId = false →
      maxApplicantsInvalid maxApplicants = false →
      typeInvalid type = false →
      (W.users (jsToString R userId)).isSome = true →
      (createJob (validatorJs iso) R (.str t) description skillsRequired deadline maxApplicants
        type userId W).1 = .ok ()) := by
  have ht : titleInvalid (validatorJs iso) (.str t)
      = .ok (!(decide (5 ≤ t.length) && decide (t.length ≤ 100))) := by
    simp [titleInvalid, Validator.isLengthCall, validatorJs, isLengthValue, JSVal.typeof]
  constructor
  · intro hlen
    have hbad : titleInvalid (validatorJs iso) (.str t) = .ok true := by
      rw [ht]
      rcases hlen with h | h
      · have : ¬ 5 ≤ t.length := by omega
        simp [this]
      · have : ¬ t.length ≤ 100 := by omega
        simp [this]
    simp [createJob, hpresent, hbad]
  · intro hlen hd hs hdl hu hm hty huser
    have hgood : titleInvalid (validatorJs iso) (.str t) = .ok false := by
      rw [ht]
      simp [hlen.1, hlen.2]
    obtain ⟨r, hr⟩ := Option.isSome_iff_exists.mp huser
    simp [createJob, hpresent, hgood, hd, hs, hdl, hu, hm, hty, hr]

/-- C1 at concrete inputs: the 4-character title is rejected, the 13-character title
is accepted. -/
theorem createJob_title_length_witness :
    (createJob (validatorJs sampleIsoDates) sampleRuntime (.str "Logo") (.str "Design a logo for us")
      (.arr [.str "Adobe Illustrator"]) (.str "2030-01-01") (.num 3 0)
      (.str "Sales & Marketing") (.str "64b7f0c2a1d3e4f5a6b7c8d9") sampleWorld).1
      = .error ⟨some 400, msgTitle⟩ ∧
    (createJob (validatorJs sampleIsoDates) sampleRuntime (.str "Logo designer")
      (.str "Design a logo for us") (.arr [.str "Adobe Illustrator"]) (.str "2030-01-01")
      (.num 3 0) (.str "Sales & Marketing") (.str "64b7f0c2a1d3e4f5a6b7c8d9") sampleWorld).1
      = .ok () :=
  ⟨(createJob_title_length sampleIsoDates sampleRuntime sampleWorld "Logo"
      (.str "Design a logo for us") (.arr [.str "Adobe Illustrator"]) (.str "2030-01-01")
      (.num 3 0) (.str "Sales & Marketing") (.str "64b7f0c2a1d3e4f5a6b7c8d9") rfl).1
      (Or.inl (by decide)),
   (createJob_title_length sampleIsoDates sampleRuntime sampleWorld "Logo designer"
      (.str "Design a logo for us") (.arr [.str "Adobe Illustrator"]) (.str "2030-01-01")
      (.num 3 0) (.str "Sales & Marketing") (.str "64b7f0c2a1d3e4f5a6b7c8d9") rfl).2
      ⟨by decide, by decide⟩ rfl rfl rfl rfl rfl rfl rfl⟩

/-- C2: whenever `createJob` succeeds (it returns no value), exactly one job is appended to
the persisted jobs, with title and description the escaped inputs, skillsRequired the
input unchanged, deadline the time value of `new Date(deadline)` (a valid date strictly
after the clock), postedBy the input userId and type the input type; the user documents
are untouched. -/
theorem createJob_persists_job (V : Validator) (R : Runtime)
    (title description skillsRequired deadline maxApplicants type userId : JSVal) (W : World)
    (hok : (createJob V R title description skillsRequired deadline maxApplicants type userId
      W).1 = .ok ()) :
    (createJob V R title description skillsRequired deadline maxApplicants type userId W).2.jobs
      = W.jobs ++ [{ title := V.escape title
                     description := V.escape description
                     skillsRequired := skillsRequired
                     deadline := R.newDate deadline
                     postedBy := userId
                     type := type }] ∧
    (∃ d, R.newDate deadline = some d ∧ R.now < d) ∧
    (createJob V R title description skillsRequired deadline maxApplicants type userId W).2.users
      = W.users := by
  rcases createJob_cases V R title description skillsRequired deadline maxApplicants type userId W
    with ⟨hx, hc⟩ | ⟨e1, hx, hc⟩ | ⟨hx, hc⟩ | ⟨e1, hx, hc⟩ | ⟨hx, hc⟩ | ⟨hx, hc⟩ | ⟨hx, hc⟩ |
      ⟨hx, hc⟩ | ⟨hx, hc⟩ | ⟨hx, hc⟩ | ⟨hx, hc⟩ | ⟨hv, hc⟩
  all_goals rw [hc] at hok ⊢
  all_goals try (simp at hok; done)
  refine ⟨rfl, ?_, rfl⟩
  have hd := hv.1.2.2.2.2.1
  unfold deadlineInvalid at hd
  cases hnd : R.newDate deadline with
  | none => simp [hnd, isAfter] at hd
  | some d =>
    refine ⟨d, rfl, ?_⟩
    simp [hnd, isAfter] at hd
    exact hd.2

/-- C2 at a concrete call: the stored job carries the escaped title. -/
theorem createJob_persists_job_witness :
    (createJob (validatorJs sampleIsoDates) sampleRuntime (.str "R&D <lead>")
      (.str "Design a logo for us") (.arr [.str "Adobe Illustrator", .str "Figma"])
      (.str "2030-01-01") (.num 3 0) (.str "Sales & Marketing")
      (.str "64b7f0c2a1d3e4f5a6b7c8d9") sampleWorld).2.jobs
      = sampleWorld.jobs ++ [{ title := (validatorJs sampleIsoDates).escape (.str "R&D <lead>")
                               description :=
                                 (validatorJs sampleIsoDates).escape (.str "Design a logo for us")
                               skillsRequired := .arr [.str "Adobe Illustrator", .str "Figma"]
                               deadline := sampleRuntime.newDate (.str "2030-01-01")
                               postedBy := .str "64b7f0c2a1d3e4f5a6b7c8d9"
                               type := .str "Sales & Marketing" }] ∧
    (validatorJs sampleIsoDates).escape (.str "R&D <lead>") = .str "R&amp;D &lt;lead&gt;" :=
  ⟨(createJob_persists_job (validatorJs sampleIsoDates) sampleRuntime (.str "R&D <lead>")
      (.str "Design a logo for us") (.arr [.str "Adobe Illustrator", .str "Figma"])
      (.str "2030-01-01") (.num 3 0) (.str "Sales & Marketing")
      (.str "64b7f0c2a1d3e4f5a6b7c8d9") sampleWorld rfl).1, rfl⟩

/-- When the title and the description are each a string or absent, a call whose deadline
is not an ISO 8601 string, or is an invalid date, or is not strictly later than the clock
(equal included), fails with status 400 and leaves the world as it was. -/
theorem createJob_deadline_rule (V : Validator) (R : Runtime)
    (title description skillsRequired deadline maxApplicants type userId : JSVal) (W : World)
    (hT : title.typeof = JSType.string ∨ title.isAbsent = true)
    (hD : description.typeof = JSType.string ∨ description.isAbsent = true)
    (hbad : V.isISO8601 (jsToString R deadline) = false ∨ R.newDate deadline = none ∨
      ∃ d, R.newDate deadline = some d ∧ d ≤ R.now) :
    (∃ msg, (createJob V R title description skillsRequired deadline maxApplicants type userId
      W).1 = .error ⟨some 400, msg⟩) ∧
    (createJob V R title description skillsRequired deadline maxApplicants type userId W).2
      = W := by
  have hd : deadlineInvalid V R deadline = true := by
    unfold deadlineInvalid
    rcases hbad with h | h | ⟨d, h, hle⟩
    · simp [h]
    · simp [h, isAfter]
    · simp [h, isAfter, hle]
  rcases createJob_cases V R title description skillsRequired deadline maxApplicants type userId W
    with ⟨hx, hc⟩ | ⟨e1, hx, hc⟩ | ⟨hx, hc⟩ | ⟨e1, hx, hc⟩ | ⟨hx, hc⟩ | ⟨hx, hc⟩ | ⟨hx, hc⟩ |
      ⟨hx, hc⟩ | ⟨hx, hc⟩ | ⟨hx, hc⟩ | ⟨hx, hc⟩ | ⟨hx, hc⟩
  · rw [hc]; exact ⟨⟨_, rfl⟩, rfl⟩
  · obtain ⟨b, hb⟩ := titleInvalid_value V title description skillsRequired deadline
      maxApplicants userId hT hx.1
    rw [hb] at hx
    cases hx.2
  · rw [hc]; exact ⟨⟨_, rfl⟩, rfl⟩
  · obtain ⟨b, hb⟩ := descriptionInvalid_value V title description skillsRequired deadline
      maxApplicants userId hD hx.1
    rw [hb] at hx
    cases hx.2.2
  · rw [hc]; exact ⟨⟨_, rfl⟩, rfl⟩
  · rw [hc]; exact ⟨⟨_, rfl⟩, rfl⟩
  · rw [hc]; exact ⟨⟨_, rfl⟩, rfl⟩
  · rw [hc]; exact ⟨⟨_, rfl⟩, rfl⟩
  · rw [hc]; exact ⟨⟨_, rfl⟩, rfl⟩
  · rw [hc]; exact ⟨⟨_, rfl⟩, rfl⟩
  · have hf := hx.1.2.2.2.2.1
    rw [hd] at hf
    cases hf
  · have hf := hx.1.2.2.2.2.1
    rw [hd] at hf
    cases hf

/-- C3: the code departs from the claim. A call with the numeric title 12345 and the
deadline 2020-01-01, which is not later than the clock, does not fail with status 400:
line 19 calls `validator.isLength` on the title before the `typeof` test, and the call
throws a `TypeError` that has no status. -/
theorem createJob_deadline_type_error :
    (∃ d, sampleRuntime.newDate (.str "2020-01-01") = some d ∧ d ≤ sampleRuntime.now) ∧
    createJob (validatorJs sampleIsoDates) sampleRuntime (.num 12345 0)
      (.str "Design a logo for us") (.arr [.str "Adobe Illustrator"]) (.str "2020-01-01")
      (.num 3 0) (.str "Sales & Marketing") (.str "64b7f0c2a1d3e4f5a6b7c8d9") sampleWorld
      = (.error ⟨none, "Expected a string but received a Number"⟩, sampleWorld) ∧
    (∀ msg, (createJob (validatorJs sampleIsoDates) sampleRuntime (.num 12345 0)
      (.str "Design a logo for us") (.arr [.str "Adobe Illustrator"]) (.str "2020-01-01")
      (.num 3 0) (.str "Sales & Marketing") (.str "64b7f0c2a1d3e4f5a6b7c8d9") sampleWorld).1
      ≠ .error ⟨some 400, msg⟩) := by
  have h := createJob_non_string_title (validatorJs sampleIsoDates) sampleRuntime
    (.num 12345 0) (.str "Design a logo for us") (.arr [.str "Adobe Illustrator"])
    (.str "2020-01-01") (.num 3 0) (.str "Sales & Marketing")
    (.str "64b7f0c2a1d3e4f5a6b7c8d9") sampleWorld rfl (by decide)
  refine ⟨⟨1577836800000, rfl, by decide⟩, h.trans rfl, ?_⟩
  intro msg
  rw [h]
  simp

/-- Removing the whitespace of a string made of whitespace leaves nothing. -/
theorem removeWhitespace_of_blank (s : String) (h : ∀ c ∈ s.data, isJsWhitespace c = true) :
    (removeWhitespace s).data = [] := by
  simp only [removeWhitespace, List.filter_eq_nil_iff]
  intro c hc
  simp [h c hc]

/-- The callback of the skills check rejects exactly the entries that are not alphanumeric
skills in the sense of the spec. -/
theorem skillInvalid_iff (iso : String → Bool) (e : JSVal) :
    skillInvalid (validatorJs iso) e = true ↔ ¬ alphanumericSkill e := by
  cases e <;>
    simp [skillInvalid, alphanumericSkill, validatorJs, isAlphanumericString, List.isEmpty_iff]
  tauto

/-- When the title and the description are each a string or absent, a call whose
skillsRequired is not an array, or has an entry that is not a string or is not
alphanumeric once its whitespace is removed, fails with status 400; an empty or
whitespace-only entry is such an entry; an array whose entries are all alphanumeric after
whitespace removal (the empty array included) passes the skills check, so the call does
not fail with the skills message. -/
theorem createJob_skills_rule (iso : String → Bool) (R : Runtime)
    (title description skillsRequired deadline maxApplicants type userId : JSVal) (W : World) :
    ((title.typeof = JSType.string ∨ title.isAbsent = true) →
      (description.typeof = JSType.string ∨ description.isAbsent = true) →
      (skillsRequired.isArray = false ∨
        ∃ xs, skillsRequired = .arr xs ∧ ∃ e ∈ xs, ¬ alphanumericSkill e) →
      ∃ msg, (createJob (validatorJs iso) R title description skillsRequired deadline
        maxApplicants type userId W).1 = .error ⟨some 400, msg⟩) ∧
    (∀ s : String, (∀ c ∈ s.data, isJsWhitespace c = true) → ¬ alphanumericSkill (.str s)) ∧
    (∀ xs : List JSVal, (∀ e ∈ xs, alphanumericSkill e) →
      skillsInvalid (validatorJs iso) (.arr xs) = false ∧
      (createJob (validatorJs iso) R title description (.arr xs) deadline maxApplicants type
        userId W).1 ≠ .error ⟨some 400, msgSkills⟩) := by
  refine ⟨?_, ?_, ?_⟩
  · intro hT hD hbad
    have hs : skillsInvalid (validatorJs iso) skillsRequired = true := by
      rcases hbad with h | ⟨xs, rfl, e, he, hne⟩
      · cases skillsRequired <;> simp_all [skillsInvalid, JSVal.isArray]
      · simp only [skillsInvalid, List.any_eq_true]
        exact ⟨e, he, (skillInvalid_iff iso e).mpr hne⟩
    rcases createJob_cases (validatorJs iso) R title description skillsRequired deadline
      maxApplicants type userId W
      with ⟨hx, hc⟩ | ⟨e1, hx, hc⟩ | ⟨hx, hc⟩ | ⟨e1, hx, hc⟩ | ⟨hx, hc⟩ | ⟨hx, hc⟩ |
        ⟨hx, hc⟩ | ⟨hx, hc⟩ | ⟨hx, hc⟩ | ⟨hx, hc⟩ | ⟨hx, hc⟩ | ⟨hx, hc⟩
    · rw [hc]; exact ⟨_, rfl⟩
    · obtain ⟨b, hb⟩ := titleInvalid_value (validatorJs iso) title description skillsRequired
        deadline maxApplicants userId hT hx.1
      rw [hb] at hx
      cases hx.2
    · rw [hc]; exact ⟨_, rfl⟩
    · obtain ⟨b, hb⟩ := descriptionInvalid_value (validatorJs iso) title description
        skillsRequired deadline maxApplicants userId hD hx.1
      rw [hb] at hx
      cases hx.2.2
    · rw [hc]; exact ⟨_, rfl⟩
    · rw [hc]; exact ⟨_, rfl⟩
    · have hf := hx.2.2.2.1
      rw [hs] at hf
      cases hf
    · have hf := hx.2.2.2.1
      rw [hs] at hf
      cases hf
    · have hf := hx.2.2.2.1
      rw [hs] at hf
      cases hf
    · have hf := hx.2.2.2.1
      rw [hs] at hf
      cases hf
    · have hf := hx.1.2.2.2.1
      rw [hs] at hf
      cases hf
    · have hf := hx.1.2.2.2.1
      rw [hs] at hf
      cases hf
  · intro s hblank hal
    exact hal.1 (removeWhitespace_of_blank s hblank)
  · intro xs hall
    have hs : skillsInvalid (validatorJs iso) (.arr xs) = false := by
      simp only [skillsInvalid, List.any_eq_false]
      intro e he hinv
      exact (skillInvalid_iff iso e).mp hinv (hall e he)
    refine ⟨hs, ?_⟩
    rcases createJob_cases (validatorJs iso) R title description (.arr xs) deadline
      maxApplicants type userId W
      with ⟨hx, hc⟩ | ⟨e1, hx, hc⟩ | ⟨hx, hc⟩ | ⟨e1, hx, hc⟩ | ⟨hx, hc⟩ | ⟨hx, hc⟩ |
        ⟨hx, hc⟩ | ⟨hx, hc⟩ | ⟨hx, hc⟩ | ⟨hx, hc⟩ | ⟨hx, hc⟩ | ⟨hx, hc⟩
    · rw [hc]; simp; decide
    · rw [hc]
      intro h
      have hst := (titleInvalid_error _ _ _ hx.2).2
      simp only [Except.error.injEq] at h
      rw [h] at hst
      cases hst
    · rw [hc]; simp; decide
    · rw [hc]
      intro h
      have hst := (descriptionInvalid_error _ _ _ hx.2.2).2
      simp only [Except.error.injEq] at h
      rw [h] at hst
      cases hst
    · rw [hc]; simp; decide
    · have hf := hx.2.2.2
      rw [hs] at hf
      cases hf
    · rw [hc]; simp; decide
    · rw [hc]; simp; decide
    · rw [hc]; simp; decide
    · rw [hc]; simp; decide
    · rw [hc]; simp
    · rw [hc]; simp

/-- C4: the code departs from the claim. A call with the numeric title 12345 and the
skillsRequired entry "front-end", which is not alphanumeric, does not fail with status
400: line 19 calls `validator.isLength` on the title before the `typeof` test, and the
call throws a `TypeError` that has no status, before line 31 is reached. -/
theorem createJob_skills_type_error :
    ¬ alphanumericSkill (.str "front-end") ∧
    createJob (validatorJs sampleIsoDates) sampleRuntime (.num 12345 0)
      (.str "Design a logo for us") (.arr [.str "Figma", .str "front-end"])
      (.str "2030-01-01") (.num 3 0) (.str "Sales & Marketing")
      (.str "64b7f0c2a1d3e4f5a6b7c8d9") sampleWorld
      = (.error ⟨none, "Expected a string but received a Number"⟩, sampleWorld) ∧
    (∀ msg, (createJob (validatorJs sampleIsoDates) sampleRuntime (.num 12345 0)
      (.str "Design a logo for us") (.arr [.str "Figma", .str "front-end"])
      (.str "2030-01-01") (.num 3 0) (.str "Sales & Marketing")
      (.str "64b7f0c2a1d3e4f5a6b7c8d9") sampleWorld).1 ≠ .error ⟨some 400, msg⟩) := by
  have h := createJob_non_string_title (validatorJs sampleIsoDates) sampleRuntime
    (.num 12345 0) (.str "Design a logo for us") (.arr [.str "Figma", .str "front-end"])
    (.str "2030-01-01") (.num 3 0) (.str "Sales & Marketing")
    (.str "64b7f0c2a1d3e4f5a6b7c8d9") sampleWorld rfl (by decide)
  refine ⟨by simp only [alphanumericSkill]; decide, h.trans rfl, ?_⟩
  intro msg
  rw [h]
  simp

/-- A type that is none of the labels fails the `includes` test. -/
theorem typeInvalid_of_not_label (type : JSVal) (h : ∀ s ∈ validJobTypes, type ≠ .str s) :
    typeInvalid type = true := by
  cases type <;> simp [typeInvalid, includesType]
  rename_i s
  intro hs
  exact h s hs rfl

set_option maxRecDepth 1000000 in
/-- The type message lists every label. -/
theorem msgType_enumerates : enumeratesTypes msgType := by
  unfold enumeratesTypes
  decide

/-- C5, as stated, fails: with a title of 3 characters and a type outside the list the call
fails with the title message, which names no job type. -/
theorem createJob_type_message_counterexample :
    (∀ s ∈ validJobTypes, JSVal.str "Gardening" ≠ .str s) ∧
    (createJob (validatorJs sampleIsoDates) sampleRuntime (.str "Dev") (.str "Design a logo for us")
      (.arr [.str "Adobe Illustrator"]) (.str "2030-01-01") (.num 3 0) (.str "Gardening")
      (.str "64b7f0c2a1d3e4f5a6b7c8d9") sampleWorld).1 = .error ⟨some 400, msgTitle⟩ ∧
    ¬ enumeratesTypes msgTitle := by
  refine ⟨?_, rfl, ?_⟩
  · intro s hs h
    injection h with h
    subst h
    revert hs
    decide
  · intro h
    have h1 := h "Sales & Marketing" (by decide)
    revert h1
    decide

/-- C5, amended: the valid job types are 15 distinct labels; a call whose type is none of
them, and whose title and description are each a string or absent, fails with status 400
and persists nothing; when every earlier check passes (required fields, title,
description, skillsRequired, deadline, userId format, maxApplicants) the error is the
type message, which lists all 15 labels. -/
theorem createJob_type_rule (V : Validator) (R : Runtime)
    (title description skillsRequired deadline maxApplicants type userId : JSVal) (W : World)
    (htype : ∀ s ∈ validJobTypes, type ≠ .str s)
    (hT : title.typeof = JSType.string ∨ title.isAbsent = true)
    (hD : description.typeof = JSType.string ∨ description.isAbsent = true) :
    validJobTypes.length = 15 ∧ validJobTypes.Nodup ∧
    (∃ msg, (createJob V R title description skillsRequired deadline maxApplicants type userId
      W).1 = .error ⟨some 400, msg⟩) ∧
    (createJob V R title description skillsRequired deadline maxApplicants type userId W).2
      = W ∧
    (missingRequired title description skillsRequired deadline maxApplicants userId = false →
      titleInvalid V title = .ok false → descriptionInvalid V description = .ok false →
      skillsInvalid V skillsRequired = false → deadlineInvalid V R deadline = false →
      userIdInvalid V R userId = false → maxApplicantsInvalid maxApplicants = false →
      (createJob V R title description skillsRequired deadline maxApplicants type userId W).1
        = .error ⟨some 400, msgType⟩) ∧
    enumeratesTypes msgType := by
  have ht := typeInvalid_of_not_label type htype
  have hmain : (∃ msg, (createJob V R title description skillsRequired deadline maxApplicants
      type userId W).1 = .error ⟨some 400, msg⟩) ∧
      (createJob V R title description skillsRequired deadline maxApplicants type userId W).2
        = W := by
    rcases createJob_cases V R title description skillsRequired deadline maxApplicants type
      userId W
      with ⟨hx, hc⟩ | ⟨e1, hx, hc⟩ | ⟨hx, hc⟩ | ⟨e1, hx, hc⟩ | ⟨hx, hc⟩ | ⟨hx, hc⟩ |
        ⟨hx, hc⟩ | ⟨hx, hc⟩ | ⟨hx, hc⟩ | ⟨hx, hc⟩ | ⟨hx, hc⟩ | ⟨hx, hc⟩
    · rw [hc]; exact ⟨⟨_, rfl⟩, rfl⟩
    · obtain ⟨b, hb⟩ := titleInvalid_value V title description skillsRequired deadline
        maxApplicants userId hT hx.1
      rw [hb] at hx
      cases hx.2
    · rw [hc]; exact ⟨⟨_, rfl⟩, rfl⟩
    · obtain ⟨b, hb⟩ := descriptionInvalid_value V title description skillsRequired deadline
        maxApplicants userId hD hx.1
      rw [hb] at hx
      cases hx.2.2
    · rw [hc]; exact ⟨⟨_, rfl⟩, rfl⟩
    · rw [hc]; exact ⟨⟨_, rfl⟩, rfl⟩
    · rw [hc]; exact ⟨⟨_, rfl⟩, rfl⟩
    · rw [hc]; exact ⟨⟨_, rfl⟩, rfl⟩
    · rw [hc]; exact ⟨⟨_, rfl⟩, rfl⟩
    · rw [hc]; exact ⟨⟨_, rfl⟩, rfl⟩
    · have hf := hx.1.2.2.2.2.2.2.2
      rw [ht] at hf
      cases hf
    · have hf := hx.1.2.2.2.2.2.2.2
      rw [ht] at hf
      cases hf
  refine ⟨by decide, by decide, hmain.1, hmain.2, ?_, msgType_enumerates⟩
  intro h1 h2 h3 h4 h5 h6 h7
  simp [createJob, h1, h2, h3, h4, h5, h6, h7, ht]

/-- C5 amended, at a concrete call: every other field valid, type outside the list. -/
theorem createJob_type_rule_witness :
    (createJob (validatorJs sampleIsoDates) sampleRuntime (.str "Logo designer")
      (.str "Design a logo for us") (.arr [.str "Adobe Illustrator"]) (.str "2030-01-01")
      (.num 3 0) (.str "Gardening") (.str "64b7f0c2a1d3e4f5a6b7c8d9") sampleWorld).1
      = .error ⟨some 400, msgType⟩ :=
  (createJob_type_rule (validatorJs sampleIsoDates) sampleRuntime (.str "Logo designer")
    (.str "Design a logo for us") (.arr [.str "Adobe Illustrator"]) (.str "2030-01-01")
    (.num 3 0) (.str "Gardening") (.str "64b7f0c2a1d3e4f5a6b7c8d9") sampleWorld
    (by
      intro s hs h
      injection h with h
      subst h
      revert hs
      decide) (Or.inl rfl) (Or.inl rfl)).2.2.2.2.1 rfl rfl rfl rfl rfl rfl rfl

/-- C6: when any of title, description, skillsRequired, deadline, maxApplicants or userId is
`undefined` or `null`, `createJob` fails with status 400 and the missing-fields message,
whatever the other arguments are, and leaves the world as it was (no other check, no
lookup); in particular a call without maxApplicants never succeeds; an absent type with
the six fields present does not produce the missing-fields error. -/
theorem createJob_missing_fields (V : Validator) (R : Runtime)
    (title description skillsRequired deadline maxApplicants type userId : JSVal) (W : World) :
    ((title.isAbsent = true ∨ description.isAbsent = true ∨ skillsRequired.isAbsent = true ∨
        deadline.isAbsent = true ∨ maxApplicants.isAbsent = true ∨ userId.isAbsent = true) →
      createJob V R title description skillsRequired deadline maxApplicants type userId W
        = (.error ⟨some 400, msgMissing⟩, W)) ∧
    (maxApplicants = .undefined →
      (createJob V R title description skillsRequired deadline maxApplicants type userId W).1
        ≠ .ok ()) ∧
    (type.isAbsent = true →
      missingRequired title description skillsRequired deadline maxApplicants userId = false →
      (createJob V R title description skillsRequired deadline maxApplicants type userId W).1
        ≠ .error ⟨some 400, msgMissing⟩) := by
  have hmiss : (title.isAbsent = true ∨ description.isAbsent = true ∨
      skillsRequired.isAbsent = true ∨ deadline.isAbsent = true ∨
      maxApplicants.isAbsent = true ∨ userId.isAbsent = true) →
      createJob V R title description skillsRequired deadline maxApplicants type userId W
        = (.error ⟨some 400, msgMissing⟩, W) := by
    intro h
    have hm := missingRequired_of_absent title description skillsRequired deadline
      maxApplicants userId h
    simp [createJob, hm]
  refine ⟨hmiss, ?_, ?_⟩
  · intro hmax
    rw [hmiss (Or.inr (Or.inr (Or.inr (Or.inr (Or.inl (by rw [hmax]; rfl))))))]
    simp
  · intro _ hpresent
    rcases createJob_cases V R title description skillsRequired deadline maxApplicants type
      userId W
      with ⟨hx, hc⟩ | ⟨e1, hx, hc⟩ | ⟨hx, hc⟩ | ⟨e1, hx, hc⟩ | ⟨hx, hc⟩ | ⟨hx, hc⟩ |
        ⟨hx, hc⟩ | ⟨hx, hc⟩ | ⟨hx, hc⟩ | ⟨hx, hc⟩ | ⟨hx, hc⟩ | ⟨hx, hc⟩
    · rw [hpresent] at hx
      cases hx
    · rw [hc]
      intro h
      have hst := (titleInvalid_error _ _ _ hx.2).2
      simp only [Except.error.injEq] at h
      rw [h] at hst
      cases hst
    · rw [hc]; simp; decide
    · rw [hc]
      intro h
      have hst := (descriptionInvalid_error _ _ _ hx.2.2).2
      simp only [Except.error.injEq] at h
      rw [h] at hst
      cases hst
    · rw [hc]; simp; decide
    · rw [hc]; simp; decide
    · rw [hc]; simp; decide
    · rw [hc]; simp; decide
    · rw [hc]; simp; decide
    · rw [hc]; simp; decide
    · rw [hc]; simp
    · rw [hc]; simp

/-- C6 at concrete calls: maxApplicants omitted, and type omitted. -/
theorem createJob_missing_fields_witness :
    createJob (validatorJs sampleIsoDates) sampleRuntime (.str "Logo designer")
      (.str "Design a logo for us") (.arr [.str "Adobe Illustrator"]) (.str "2030-01-01")
      .undefined (.str "Sales & Marketing") (.str "64b7f0c2a1d3e4f5a6b7c8d9") sampleWorld
      = (.error ⟨some 400, msgMissing⟩, sampleWorld) ∧
    (createJob (validatorJs sampleIsoDates) sampleRuntime (.str "Logo designer")
      (.str "Design a logo for us") (.arr [.str "Adobe Illustrator"]) (.str "2030-01-01")
      (.num 3 0) .undefined (.str "64b7f0c2a1d3e4f5a6b7c8d9") sampleWorld).1
      ≠ .error ⟨some 400, msgMissing⟩ :=
  ⟨(createJob_missing_fields (validatorJs sampleIsoDates) sampleRuntime (.str "Logo designer")
      (.str "Design a logo for us") (.arr [.str "Adobe Illustrator"]) (.str "2030-01-01")
      .undefined (.str "Sales & Marketing") (.str "64b7f0c2a1d3e4f5a6b7c8d9") sampleWorld).1
      (Or.inr (Or.inr (Or.inr (Or.inr (Or.inl rfl))))),
   (createJob_missing_fields (validatorJs sampleIsoDates) sampleRuntime (.str "Logo designer")
      (.str "Design a logo for us") (.arr [.str "Adobe Illustrator"]) (.str "2030-01-01")
      (.num 3 0) .undefined (.str "64b7f0c2a1d3e4f5a6b7c8d9") sampleWorld).2.2 rfl rfl⟩

/-- C7: `createJob` fails with status 404 exactly when every field validation passes and
the store has no user with the given userId; the error then is "User not found." and no
job is persisted (the jobs and the users are as before). -/
theorem createJob_user_not_found (V : Validator) (R : Runtime)
    (title description skillsRequired deadline maxApplicants type userId : JSVal) (W : World) :
    ((∃ msg, (createJob V R title description skillsRequired deadline maxApplicants type userId
        W).1 = .error ⟨some 404, msg⟩) ↔
      (fieldsValid V R title description skillsRequired deadline maxApplicants type userId ∧
        W.users (jsToString R userId) = none)) ∧
    ((∃ msg, (createJob V R title description skillsRequired deadline maxApplicants type userId
        W).1 = .error ⟨some 404, msg⟩) →
      (createJob V R title description skillsRequired deadline maxApplicants type userId W).1
        = .error ⟨some 404, msgUserNotFound⟩ ∧
      (createJob V R title description skillsRequired deadline maxApplicants type userId
        W).2.jobs = W.jobs ∧
      (createJob V R title description skillsRequired deadline maxApplicants type userId
        W).2.users = W.users) := by
  have hno : ∀ e : Thrown, e.status = none → ¬ ∃ msg, (Except.error e : Except Thrown Unit)
      = .error ⟨some 404, msg⟩ := by
    rintro e hst ⟨msg, h⟩
    simp only [Except.error.injEq] at h
    rw [h] at hst
    cases hst
  rcases createJob_cases V R title description skillsRequired deadline maxApplicants type userId W
    with ⟨hx, hc⟩ | ⟨e1, hx, hc⟩ | ⟨hx, hc⟩ | ⟨e1, hx, hc⟩ | ⟨hx, hc⟩ | ⟨hx, hc⟩ | ⟨hx, hc⟩ |
      ⟨hx, hc⟩ | ⟨hx, hc⟩ | ⟨hx, hc⟩ | ⟨hx, hc⟩ | ⟨hx, hc⟩
  · rw [hc]; simp [fieldsValid, hx]
  · rw [hc]
    have h1 := hno e1 (titleInvalid_error _ _ _ hx.2).2
    refine ⟨⟨fun h => absurd h h1, fun h => ?_⟩, fun h => absurd h h1⟩
    have h2 := h.1.2.1
    rw [hx.2] at h2
    cases h2
  · rw [hc]; simp [fieldsValid, hx]
  · rw [hc]
    have h1 := hno e1 (descriptionInvalid_error _ _ _ hx.2.2).2
    refine ⟨⟨fun h => absurd h h1, fun h => ?_⟩, fun h => absurd h h1⟩
    have h2 := h.1.2.2.1
    rw [hx.2.2] at h2
    cases h2
  · rw [hc]; simp [fieldsValid, hx]
  · rw [hc]; simp [fieldsValid, hx]
  · rw [hc]; simp [fieldsValid, hx]
  · rw [hc]; simp [fieldsValid, hx]
  · rw [hc]; simp [fieldsValid, hx]
  · rw [hc]; simp [fieldsValid, hx]
  · rw [hc]; simp [hx, World.emit]
  · rw [hc]
    simp only [reduceCtorEq, exists_false, false_iff, not_and, false_imp_iff, and_true]
    intro _ hn
    have hs := hx.2
    simp [hn] at hs

/-- C7 at a concrete call: valid fields, well-formed userId that is not in the store. -/
theorem createJob_user_not_found_witness :
    (createJob (validatorJs sampleIsoDates) sampleRuntime (.str "Logo designer")
      (.str "Design a logo for us") (.arr [.str "Adobe Illustrator"]) (.str "2030-01-01")
      (.num 3 0) (.str "Sales & Marketing") (.str "0000000000000000000000ff") sampleWorld).1
      = .error ⟨some 404, msgUserNotFound⟩ :=
  ((createJob_user_not_found (validatorJs sampleIsoDates) sampleRuntime (.str "Logo designer")
      (.str "Design a logo for us") (.arr [.str "Adobe Illustrator"]) (.str "2030-01-01")
      (.num 3 0) (.str "Sales & Marketing") (.str "0000000000000000000000ff") sampleWorld).2
      ⟨msgUserNotFound, rfl⟩).1

/-- Escaping replaces each character by at least one and at most six characters. -/
theorem escape_length_bounds (cs : List Char) :
    cs.length ≤ (cs.flatMap escapeChar).length ∧
    (cs.flatMap escapeChar).length ≤ 6 * cs.length := by
  induction cs with
  | nil => simp
  | cons c cs ih =>
    have hc : 1 ≤ (escapeChar c).length ∧ (escapeChar c).length ≤ 6 := by
      unfold escapeChar
      split_ifs <;> simp
    simp only [List.flatMap_cons, List.length_append, List.length_cons]
    omega

/-- C8, as stated, fails: a title of 21 ampersands passes the length check and is stored
as a string of 105 characters. -/
theorem createJob_title_bound_counterexample :
    (createJob (validatorJs sampleIsoDates) sampleRuntime (.str "&&&&&&&&&&&&&&&&&&&&&")
      (.str "Design a logo for us") (.arr [.str "Adobe Illustrator"]) (.str "2030-01-01")
      (.num 3 0) (.str "Sales & Marketing") (.str "64b7f0c2a1d3e4f5a6b7c8d9") sampleWorld).1
      = .ok () ∧
    (createJob (validatorJs sampleIsoDates) sampleRuntime (.str "&&&&&&&&&&&&&&&&&&&&&")
      (.str "Design a logo for us") (.arr [.str "Adobe Illustrator"]) (.str "2030-01-01")
      (.num 3 0) (.str "Sales & Marketing") (.str "64b7f0c2a1d3e4f5a6b7c8d9")
      sampleWorld).2.jobs.map (fun j => j.title.strLength) = [some 105] := by
  constructor <;> rfl

/-- C8, amended: every job persisted by `createJob` has as title the escaped form of an
input string of 5 to 100 characters; the stored string has at least 5 and at most 600
characters. A failed call persists nothing. -/
theorem createJob_persisted_title (iso : String → Bool) (R : Runtime)
    (title description skillsRequired deadline maxApplicants type userId : JSVal) (W : World) :
    (createJob (validatorJs iso) R title description skillsRequired deadline maxApplicants type
      userId W).2.jobs = W.jobs ∨
    ∃ (t : String) (job : Job),
      title = .str t ∧ 5 ≤ t.length ∧ t.length ≤ 100 ∧
      (createJob (validatorJs iso) R title description skillsRequired deadline maxApplicants
        type userId W).2.jobs = W.jobs ++ [job] ∧
      job.title = .str (escapeString t) ∧
      5 ≤ (escapeString t).length ∧ (escapeString t).length ≤ 600 := by
  rcases createJob_cases (validatorJs iso) R title description skillsRequired deadline
    maxApplicants type userId W
    with ⟨hx, hc⟩ | ⟨e1, hx, hc⟩ | ⟨hx, hc⟩ | ⟨e1, hx, hc⟩ | ⟨hx, hc⟩ | ⟨hx, hc⟩ | ⟨hx, hc⟩ |
      ⟨hx, hc⟩ | ⟨hx, hc⟩ | ⟨hx, hc⟩ | ⟨hx, hc⟩ | ⟨hv, hc⟩
  all_goals rw [hc]
  all_goals try (left; rfl)
  right
  obtain ⟨t, rfl, hlen⟩ := titleInvalid_ok_false _ _ hv.1.2.1
  simp [validatorJs, isLengthValue] at hlen
  have hb := escape_length_bounds t.data
  refine ⟨t, _, rfl, hlen.1, hlen.2, rfl, rfl, ?_, ?_⟩
  · show 5 ≤ (t.data.flatMap escapeChar).length
    have : t.data.length = t.length := rfl
    omega
  · show (t.data.flatMap escapeChar).length ≤ 600
    have : t.data.length = t.length := rfl
    omega

/-! ## Claims on followUser -/

/-- The `try` block of `followUser` when both users exist. -/
theorem followUserTry_of_found (W : World) (u f : String) (user target : User)
    (hu : W.users u = some user) (hf : W.users f = some target) :
    followUserTry (.id u) (.id f) W =
      if user.following.contains f && target.followers.contains u then
        (.error ⟨some 400, msgAlreadyFollowing⟩,
          { W with trace := W.trace ++ [.log ("Follow request received by " ++ u ++ " for " ++ f),
              .findUser f, .findUser u] })
      else
        (.ok (),
          { users := fun k =>
              if k = f then
                (if k = u then (W.users k).map (fun r => { r with following := user.following ++ [f] })
                  else W.users k).map (fun r => { r with followers := target.followers ++ [u] })
              else if k = u then
                (W.users k).map (fun r => { r with following := user.following ++ [f] })
              else W.users k
            jobs := W.jobs
            trace := W.trace ++ [.log ("Follow request received by " ++ u ++ " for " ++ f),
              .findUser f, .findUser u, .saveUser u, .saveUser f,
              .log ("User " ++ u ++ " successfully followed user " ++ f)] }) := by
  simp only [followUserTry, followUserTryWith, awaitSaves, findMissingParams, World.findById,
    IdArg.show, hu, hf, World.emit, World.saveFollowing, World.saveFollowers]
  simp

/-- C9: when users `u` and `f` both exist, `f` is not in the following list of `u` and `u`
is not in the followers list of `f`, `followUser(u, f)` succeeds; afterwards the following
list of `u` is the old one with `f` appended, the followers list of `f` is the old one with
`u` appended, every other user document is unchanged, and no other field of the two
documents changes (for each identifier `k` the new document is the old one with `f`
appended to following when `k = u` and `u` appended to followers when `k = f`). -/
theorem followUser_appends (W : World) (u f : String) (user target : User)
    (hu : W.users u = some user) (hf : W.users f = some target)
    (h1 : f ∉ user.following) (h2 : u ∉ target.followers) :
    (followUser (.id u) (.id f) W).1 = .ok () ∧
    ((followUser (.id u) (.id f) W).2.users u).map User.following
      = some (user.following ++ [f]) ∧
    ((followUser (.id u) (.id f) W).2.users f).map User.followers
      = some (target.followers ++ [u]) ∧
    (∀ k, k ≠ u → k ≠ f → (followUser (.id u) (.id f) W).2.users k = W.users k) ∧
    (∀ k, (followUser (.id u) (.id f) W).2.users k = (W.users k).map (fun r =>
      { following := if k = u then r.following ++ [f] else r.following
        followers := if k = f then r.followers ++ [u] else r.followers
        profile := r.profile })) ∧
    (followUser (.id u) (.id f) W).2.jobs = W.jobs := by
  have hc : user.following.contains f = false := by simpa using h1
  have hall : ∀ k, (followUser (.id u) (.id f) W).2.users k = (W.users k).map (fun r =>
      { following := if k = u then r.following ++ [f] else r.following
        followers := if k = f then r.followers ++ [u] else r.followers
        profile := r.profile }) := by
    intro k
    simp only [followUser, followUserTry_of_found W u f user target hu hf, hc, rethrowAsError]
    simp only [Bool.false_and, Bool.false_eq_true, if_false]
    by_cases hku : k = u <;> by_cases hkf : k = f
    · subst hku
      subst hkf
      simp [hu]
      rw [hu] at hf
      cases hf
      rfl
    · subst hku
      simp [hkf, hu]
    · subst hkf
      simp [hku, hf]
    · simp [hku, hkf]
  refine ⟨?_, ?_, ?_, ?_, hall, ?_⟩
  · simp [followUser, followUserTry_of_found W u f user target hu hf, h1, rethrowAsError]
  · rw [hall u, hu]
    simp
  · rw [hall f, hf]
    simp
  · intro k hku hkf
    rw [hall k]
    simp [hku, hkf]
  · simp [followUser, followUserTry_of_found W u f user target hu hf, h1, rethrowAsError]

/-- C9 at the scenario of the spec: `u1` and `u2` exist with empty lists; after
`followUser(u1, u2)` the following list of `u1` is `[u2]` and the followers list of `u2`
is `[u1]`. -/
theorem followUser_appends_witness :
    (followUser (.id "u1") (.id "u2") pairWorld).1 = .ok () ∧
    (followUser (.id "u1") (.id "u2") pairWorld).2.users "u1" = some ⟨["u2"], [], "ana"⟩ ∧
    (followUser (.id "u1") (.id "u2") pairWorld).2.users "u2" = some ⟨[], ["u1"], "ben"⟩ := by
  have h := followUser_appends pairWorld "u1" "u2" ⟨[], [], "ana"⟩ ⟨[], [], "ben"⟩ rfl rfl
    (by simp) (by simp)
  exact ⟨h.1, (h.2.2.2.2.1 "u1").trans rfl, (h.2.2.2.2.1 "u2").trans rfl⟩

/-- C10: when both users exist, `followUser(u, f)` fails with the message "Failed to follow
user: Already following" exactly when `f` is in the following list of `u` and `u` is in the
followers list of `f`; the object thrown inside carries status 400 and the caller receives
an error with that message; the users and the jobs are then unchanged. -/
theorem followUser_already_following (W : World) (u f : String) (user target : User)
    (hu : W.users u = some user) (hf : W.users f = some target) :
    ((followUser (.id u) (.id f) W).1 = .error ⟨none, msgAlreadyFollowing⟩ ↔
      (f ∈ user.following ∧ u ∈ target.followers)) ∧
    ((followUserTry (.id u) (.id f) W).1 = .error ⟨some 400, msgAlreadyFollowing⟩ ↔
      (f ∈ user.following ∧ u ∈ target.followers)) ∧
    ((followUser (.id u) (.id f) W).1 = .error ⟨none, msgAlreadyFollowing⟩ →
      (followUser (.id u) (.id f) W).2.users = W.users ∧
      (followUser (.id u) (.id f) W).2.jobs = W.jobs) := by
  simp only [followUser, followUserTry_of_found W u f user target hu hf]
  by_cases hc : (user.following.contains f && target.followers.contains u) = true
  · have hm : f ∈ user.following ∧ u ∈ target.followers := by simpa using hc
    simp [hc, hm, rethrowAsError]
  · have hm : ¬ (f ∈ user.following ∧ u ∈ target.followers) := by simpa using hc
    simp [hc, hm, rethrowAsError]

/-- C10 at the scenario of the spec: `u1` already follows `u2` on both sides. -/
theorem followUser_already_following_witness :
    (followUser (.id "u1") (.id "u2") followingWorld).1
      = .error ⟨none, msgAlreadyFollowing⟩ ∧
    (followUser (.id "u1") (.id "u2") followingWorld).2.users = followingWorld.users := by
  have h := followUser_already_following followingWorld "u1" "u2" ⟨["u2"], [], "ana"⟩
    ⟨[], ["u1"], "ben"⟩ rfl rfl
  have h1 := h.1.mpr ⟨by simp, by simp⟩
  exact ⟨h1, (h.2.2 h1).1⟩

/-! ## Lemmas on the relationship service -/

/-- The `try` block of `followUser` when an identifier is missing. -/
theorem followUserTry_of_missing (userId followId : IdArg) (W : World)
    (h : userId.isMissing = true ∨ followId.isMissing = true) :
    followUserTry userId followId W =
      (.error ⟨some 400, msgIdNotFound⟩,
        W.emit (.log ("Follow request received by " ++ userId.show ++ " for "
          ++ followId.show))) := by
  have hm : findMissingParams [userId, followId] = true := by
    cases userId <;> cases followId <;> simp_all [findMissingParams, IdArg.isMissing]
  simp [followUserTry, followUserTryWith, hm]

/-- The `try` block of `unfollowUser` when an identifier is missing. -/
theorem unfollowUserTry_of_missing (userId unfollowId : IdArg) (W : World)
    (h : userId.isMissing = true ∨ unfollowId.isMissing = true) :
    unfollowUserTry userId unfollowId W =
      (.error ⟨some 400, msgIdNotFound⟩,
        W.emit (.log ("Unfollow request received by " ++ userId.show ++ " for "
          ++ unfollowId.show))) := by
  have hm : findMissingParams [unfollowId, userId] = true := by
    cases userId <;> cases unfollowId <;> simp_all [findMissingParams, IdArg.isMissing]
  simp [unfollowUserTry, unfollowUserTryWith, hm]

/-- The `try` block of `followUser` when a user is not in the store. -/
theorem followUserTry_of_absent (W : World) (u f : String)
    (h : W.users u = none ∨ W.users f = none) :
    followUserTry (.id u) (.id f) W =
      (.error ⟨some 400, msgUserMissing⟩,
        { W with trace := W.trace ++ [.log ("Follow request received by " ++ u ++ " for " ++ f),
            .findUser f, .findUser u] }) := by
  simp only [followUserTry, followUserTryWith, findMissingParams, World.findById, IdArg.show,
    World.emit]
  rcases h with h | h
  · cases hf : W.users f <;> simp [h]
  · simp [h]

/-- The `try` block of `unfollowUser` when a user is not in the store. -/
theorem unfollowUserTry_of_absent (W : World) (u f : String)
    (h : W.users u = none ∨ W.users f = none) :
    unfollowUserTry (.id u) (.id f) W =
      (.error ⟨some 400, msgUserMissing⟩,
        { W with trace := W.trace ++ [.log ("Unfollow request received by " ++ u ++ " for "
            ++ f), .findUser f, .findUser u] }) := by
  simp only [unfollowUserTry, unfollowUserTryWith, findMissingParams, World.findById,
    IdArg.show, World.emit]
  rcases h with h | h
  · cases hf : W.users f <;> simp [h]
  · simp [h]

/-- The two saves of a relationship call, document by document. -/
theorem saved_docs (users : String → Option User) (u f : String) (user target : User)
    (hu : users u = some user) (hf : users f = some target) (l1 l2 : List String) (k : String) :
    (if k = f then
        (if k = u then (users k).map (fun r => { r with following := l1 }) else users k).map
          (fun r => { r with followers := l2 })
      else if k = u then (users k).map (fun r => { r with following := l1 })
      else users k)
      = (users k).map (fun r =>
          { following := if k = u then l1 else r.following
            followers := if k = f then l2 else r.followers
            profile := r.profile }) := by
  by_cases hku : k = u <;> by_cases hkf : k = f
  · subst hku
    subst hkf
    simp [hu]
  · subst hku
    simp [hkf, hu]
  · subst hkf
    simp [hku, hf]
  · simp [hku, hkf]

/-- The `try` block of `unfollowUser` when both users exist. -/
theorem unfollowUserTry_of_found (W : World) (u f : String) (user target : User)
    (hu : W.users u = some user) (hf : W.users f = some target) :
    unfollowUserTry (.id u) (.id f) W =
      if !user.following.contains f && !target.followers.contains u then
        (.error ⟨some 400, msgNotFollowing⟩,
          { W with trace := W.trace ++ [.log ("Unfollow request received by " ++ u ++ " for "
              ++ f), .findUser f, .findUser u] })
      else
        (.ok (),
          { users := fun k =>
              if k = f then
                (if k = u then
                    (W.users k).map (fun r =>
                      { r with following := user.following.filter (fun id => id != f) })
                  else W.users k).map
                  (fun r => { r with followers := target.followers.filter (fun id => id != u) })
              else if k = u then
                (W.users k).map (fun r =>
                  { r with following := user.following.filter (fun id => id != f) })
              else W.users k
            jobs := W.jobs
            trace := W.trace ++ [.log ("Unfollow request received by " ++ u ++ " for " ++ f),
              .findUser f, .findUser u, .saveUser u, .saveUser f,
              .log ("User " ++ u ++ " successfully unfollowed user " ++ f)] }) := by
  simp only [unfollowUserTry, unfollowUserTryWith, awaitSaves, findMissingParams,
    World.findById, IdArg.show, hu, hf, World.emit, World.saveFollowing, World.saveFollowers]
  simp

/-- A `followUser` between two stored users that is not recorded on both sides succeeds
and stores `followedDoc` for every document. -/
theorem followUser_of_unrecorded (W : World) (u f : String) (user target : User)
    (hu : W.users u = some user) (hf : W.users f = some target)
    (hnot : ¬ (f ∈ user.following ∧ u ∈ target.followers)) :
    (followUser (.id u) (.id f) W).1 = .ok () ∧
    (∀ k, (followUser (.id u) (.id f) W).2.users k = (W.users k).map (followedDoc u f k)) ∧
    (followUser (.id u) (.id f) W).2.jobs = W.jobs := by
  have hc : (user.following.contains f && target.followers.contains u) = false := by
    simpa using hnot
  refine ⟨?_, ?_, ?_⟩
  · simp only [followUser, followUserTry_of_found W u f user target hu hf, hc, rethrowAsError,
      Bool.false_eq_true, if_false]
  · intro k
    simp only [followUser, followUserTry_of_found W u f user target hu hf, hc, rethrowAsError]
    simp only [Bool.false_eq_true, if_false]
    rw [saved_docs W.users u f user target hu hf]
    by_cases hku : k = u <;> by_cases hkf : k = f
    · subst hku
      subst hkf
      rw [hu] at hf
      cases hf
      simp [hu, followedDoc]
    · subst hku
      simp [hkf, hu, followedDoc]
    · subst hkf
      simp [hku, hf, followedDoc]
    · cases W.users k <;> simp [hku, hkf, followedDoc]
  · simp only [followUser, followUserTry_of_found W u f user target hu hf, hc, rethrowAsError,
      Bool.false_eq_true, if_false]

/-- A `followUser` between two stored users that is recorded on both sides fails and
leaves users and jobs as they were. -/
theorem followUser_of_recorded (W : World) (u f : String) (user target : User)
    (hu : W.users u = some user) (hf : W.users f = some target)
    (hboth : f ∈ user.following ∧ u ∈ target.followers) :
    (followUser (.id u) (.id f) W).1 = .error ⟨none, msgAlreadyFollowing⟩ ∧
    (followUser (.id u) (.id f) W).2.users = W.users ∧
    (followUser (.id u) (.id f) W).2.jobs = W.jobs := by
  have hc : (user.following.contains f && target.followers.contains u) = true := by
    simpa using hboth
  simp only [followUser, followUserTry_of_found W u f user target hu hf, hc, rethrowAsError,
    if_true, and_self]

/-- An `unfollowUser` between two stored users that is recorded on some side succeeds and
stores `unfollowedDoc` for every document. -/
theorem unfollowUser_of_recorded (W : World) (u f : String) (user target : User)
    (hu : W.users u = some user) (hf : W.users f = some target)
    (hsome : f ∈ user.following ∨ u ∈ target.followers) :
    (unfollowUser (.id u) (.id f) W).1 = .ok () ∧
    (∀ k, (unfollowUser (.id u) (.id f) W).2.users k
      = (W.users k).map (unfollowedDoc u f k)) ∧
    (unfollowUser (.id u) (.id f) W).2.jobs = W.jobs := by
  have hc : (!user.following.contains f && !target.followers.contains u) = false := by
    rcases hsome with h | h <;> simp [h]
  refine ⟨?_, ?_, ?_⟩
  · simp only [unfollowUser, unfollowUserTry_of_found W u f user target hu hf, hc, rethrowAsError,
      Bool.false_eq_true, if_false]
  · intro k
    simp only [unfollowUser, unfollowUserTry_of_found W u f user target hu hf, hc,
      rethrowAsError]
    simp only [Bool.false_eq_true, if_false]
    rw [saved_docs W.users u f user target hu hf]
    by_cases hku : k = u <;> by_cases hkf : k = f
    · subst hku
      subst hkf
      rw [hu] at hf
      cases hf
      simp [hu, unfollowedDoc]
    · subst hku
      simp [hkf, hu, unfollowedDoc]
    · subst hkf
      simp [hku, hf, unfollowedDoc]
    · cases W.users k <;> simp [hku, hkf, unfollowedDoc]
  · simp only [unfollowUser, unfollowUserTry_of_found W u f user target hu hf, hc, rethrowAsError,
      Bool.false_eq_true, if_false]

/-- An `unfollowUser` between two stored users that is recorded on neither side fails and
leaves users and jobs as they were. -/
theorem unfollowUser_of_unrecorded (W : World) (u f : String) (user target : User)
    (hu : W.users u = some user) (hf : W.users f = some target)
    (hnone : f ∉ user.following ∧ u ∉ target.followers) :
    (unfollowUser (.id u) (.id f) W).1 = .error ⟨none, msgNotFollowing⟩ ∧
    (unfollowUser (.id u) (.id f) W).2.users = W.users ∧
    (unfollowUser (.id u) (.id f) W).2.jobs = W.jobs := by
  have hc : (!user.following.contains f && !target.followers.contains u) = true := by
    simp [hnone.1, hnone.2]
  simp only [unfollowUser, unfollowUserTry_of_found W u f user target hu hf, hc, rethrowAsError,
    if_true, and_self]

/-- Every `followUser` call falls in one of four cases: an identifier is missing, a user is
not stored, the relationship is recorded on both sides, or the call succeeds. -/
theorem followUser_cases (userId followId : IdArg) (W : World) :
    ((userId.isMissing = true ∨ followId.isMissing = true) ∧
      (followUser userId followId W).1 = .error ⟨none, msgIdNotFound⟩ ∧
      (followUser userId followId W).2.users = W.users ∧
      (followUser userId followId W).2.jobs = W.jobs) ∨
    (∃ u f, userId = .id u ∧ followId = .id f ∧ (W.users u = none ∨ W.users f = none) ∧
      (followUser userId followId W).1 = .error ⟨none, msgUserMissing⟩ ∧
      (followUser userId followId W).2.users = W.users ∧
      (followUser userId followId W).2.jobs = W.jobs) ∨
    (∃ u f user target, userId = .id u ∧ followId = .id f ∧
      W.users u = some user ∧ W.users f = some target ∧
      (f ∈ user.following ∧ u ∈ target.followers) ∧
      (followUser userId followId W).1 = .error ⟨none, msgAlreadyFollowing⟩ ∧
      (followUser userId followId W).2.users = W.users ∧
      (followUser userId followId W).2.jobs = W.jobs) ∨
    (∃ u f user target, userId = .id u ∧ followId = .id f ∧
      W.users u = some user ∧ W.users f = some target ∧
      ¬ (f ∈ user.following ∧ u ∈ target.followers) ∧
      (followUser userId followId W).1 = .ok () ∧
      (∀ k, (followUser userId followId W).2.users k = (W.users k).map (followedDoc u f k)) ∧
      (followUser userId followId W).2.jobs = W.jobs) := by
  by_cases hm : userId.isMissing = true ∨ followId.isMissing = true
  · left
    refine ⟨hm, ?_⟩
    simp [followUser, followUserTry_of_missing userId followId W hm, rethrowAsError, World.emit]
  · right
    cases userId with
    | id u =>
      cases followId with
      | id f =>
        cases hu : W.users u with
        | none =>
          left
          refine ⟨u, f, rfl, rfl, Or.inl hu, ?_⟩
          simp [followUser, followUserTry_of_absent W u f (Or.inl hu), rethrowAsError]
        | some user =>
          cases hf : W.users f with
          | none =>
            left
            refine ⟨u, f, rfl, rfl, Or.inr hf, ?_⟩
            simp [followUser, followUserTry_of_absent W u f (Or.inr hf), rethrowAsError]
          | some target =>
            right
            by_cases hb : f ∈ user.following ∧ u ∈ target.followers
            · left
              exact ⟨u, f, user, target, rfl, rfl, hu, hf, hb,
                followUser_of_recorded W u f user target hu hf hb⟩
            · right
              exact ⟨u, f, user, target, rfl, rfl, hu, hf, hb,
                followUser_of_unrecorded W u f user target hu hf hb⟩
      | undefined => simp [IdArg.isMissing] at hm
      | null => simp [IdArg.isMissing] at hm
    | undefined => simp [IdArg.isMissing] at hm
    | null => simp [IdArg.isMissing] at hm

/-- Every `unfollowUser` call falls in one of four cases: an identifier is missing, a user
is not stored, the relationship is recorded on neither side, or the call succeeds. -/
theorem unfollowUser_cases (userId unfollowId : IdArg) (W : World) :
    ((userId.isMissing = true ∨ unfollowId.isMissing = true) ∧
      (unfollowUser userId unfollowId W).1 = .error ⟨none, msgIdNotFound⟩ ∧
      (unfollowUser userId unfollowId W).2.users = W.users ∧
      (unfollowUser userId unfollowId W).2.jobs = W.jobs) ∨
    (∃ u f, userId = .id u ∧ unfollowId = .id f ∧ (W.users u = none ∨ W.users f = none) ∧
      (unfollowUser userId unfollowId W).1 = .error ⟨none, msgUserMissing⟩ ∧
      (unfollowUser userId unfollowId W).2.users = W.users ∧
      (unfollowUser userId unfollowId W).2.jobs = W.jobs) ∨
    (∃ u f user target, userId = .id u ∧ unfollowId = .id f ∧
      W.users u = some user ∧ W.users f = some target ∧
      (f ∉ user.following ∧ u ∉ target.followers) ∧
      (unfollowUser userId unfollowId W).1 = .error ⟨none, msgNotFollowing⟩ ∧
      (unfollowUser userId unfollowId W).2.users = W.users ∧
      (unfollowUser userId unfollowId W).2.jobs = W.jobs) ∨
    (∃ u f user target, userId = .id u ∧ unfollowId = .id f ∧
      W.users u = some user ∧ W.users f = some target ∧
      (f ∈ user.following ∨ u ∈ target.followers) ∧
      (unfollowUser userId unfollowId W).1 = .ok () ∧
      (∀ k, (unfollowUser userId unfollowId W).2.users k
        = (W.users k).map (unfollowedDoc u f k)) ∧
      (unfollowUser userId unfollowId W).2.jobs = W.jobs) := by
  by_cases hm : userId.isMissing = true ∨ unfollowId.isMissing = true
  · left
    refine ⟨hm, ?_⟩
    simp [unfollowUser, unfollowUserTry_of_missing userId unfollowId W hm, rethrowAsError,
      World.emit]
  · right
    cases userId with
    | id u =>
      cases unfollowId with
      | id f =>
        cases hu : W.users u with
        | none =>
          left
          refine ⟨u, f, rfl, rfl, Or.inl hu, ?_⟩
          simp [unfollowUser, unfollowUserTry_of_absent W u f (Or.inl hu), rethrowAsError]
        | some user =>
          cases hf : W.users f with
          | none =>
            left
            refine ⟨u, f, rfl, rfl, Or.inr hf, ?_⟩
            simp [unfollowUser, unfollowUserTry_of_absent W u f (Or.inr hf), rethrowAsError]
          | some target =>
            right
            by_cases hb : f ∈ user.following ∨ u ∈ target.followers
            · right
              exact ⟨u, f, user, target, rfl, rfl, hu, hf, hb,
                unfollowUser_of_recorded W u f user target hu hf hb⟩
            · left
              have hn : f ∉ user.following ∧ u ∉ target.followers := by tauto
              exact ⟨u, f, user, target, rfl, rfl, hu, hf, hn,
                unfollowUser_of_unrecorded W u f user target hu hf hn⟩
      | undefined => simp [IdArg.isMissing] at hm
      | null => simp [IdArg.isMissing] at hm
    | undefined => simp [IdArg.isMissing] at hm
    | null => simp [IdArg.isMissing] at hm

/-- Appending the edge `u` follows `f` on both sides keeps the mutual-list condition. -/
theorem mutualLists_followed (users : String → Option User) (u f : String)
    (h : mutualLists users) :
    mutualLists (fun k => (users k).map (followedDoc u f k)) := by
  intro a b ra rb ha hb
  simp only [Option.map_eq_some'] at ha hb
  obtain ⟨ra0, ha0, rfl⟩ := ha
  obtain ⟨rb0, hb0, rfl⟩ := hb
  have hab := h a b ra0 rb0 ha0 hb0
  simp only [followedDoc]
  by_cases hau : a = u <;> by_cases hbf : b = f <;> simp [hau, hbf]
  · subst hau
    simpa [hbf] using hab
  · subst hbf
    simpa [hau] using hab
  · exact hab

/-- Removing the edge `u` follows `f` on both sides keeps the mutual-list condition. -/
theorem mutualLists_unfollowed (users : String → Option User) (u f : String)
    (h : mutualLists users) :
    mutualLists (fun k => (users k).map (unfollowedDoc u f k)) := by
  intro a b ra rb ha hb
  simp only [Option.map_eq_some'] at ha hb
  obtain ⟨ra0, ha0, rfl⟩ := ha
  obtain ⟨rb0, hb0, rfl⟩ := hb
  have hab := h a b ra0 rb0 ha0 hb0
  simp only [unfollowedDoc]
  by_cases hau : a = u <;> by_cases hbf : b = f <;> simp [hau, hbf]
  · subst hau
    simpa [hbf] using hab
  · subst hbf
    simpa [hau] using hab
  · exact hab

/-- On a store whose saves complete, what the `try` block of `followUser` throws has
status 400. -/
theorem followUserTry_error_status (userId followId : IdArg) (W : World) (inner : Thrown)
    (h : (followUserTry userId followId W).1 = .error inner) : inner.status = some 400 := by
  by_cases hm : userId.isMissing = true ∨ followId.isMissing = true
  · rw [followUserTry_of_missing userId followId W hm] at h
    cases h
    rfl
  · cases userId with
    | id u =>
      cases followId with
      | id f =>
        cases hu : W.users u with
        | none =>
          rw [followUserTry_of_absent W u f (Or.inl hu)] at h
          cases h
          rfl
        | some user =>
          cases hf : W.users f with
          | none =>
            rw [followUserTry_of_absent W u f (Or.inr hf)] at h
            cases h
            rfl
          | some target =>
            rw [followUserTry_of_found W u f user target hu hf] at h
            split_ifs at h
            cases h
            rfl
      | undefined => simp [IdArg.isMissing] at hm
      | null => simp [IdArg.isMissing] at hm
    | undefined => simp [IdArg.isMissing] at hm
    | null => simp [IdArg.isMissing] at hm

/-- On a store whose saves complete, what the `try` block of `unfollowUser` throws has
status 400. -/
theorem unfollowUserTry_error_status (userId unfollowId : IdArg) (W : World) (inner : Thrown)
    (h : (unfollowUserTry userId unfollowId W).1 = .error inner) :
    inner.status = some 400 := by
  by_cases hm : userId.isMissing = true ∨ unfollowId.isMissing = true
  · rw [unfollowUserTry_of_missing userId unfollowId W hm] at h
    cases h
    rfl
  · cases userId with
    | id u =>
      cases unfollowId with
      | id f =>
        cases hu : W.users u with
        | none =>
          rw [unfollowUserTry_of_absent W u f (Or.inl hu)] at h
          cases h
          rfl
        | some user =>
          cases hf : W.users f with
          | none =>
            rw [unfollowUserTry_of_absent W u f (Or.inr hf)] at h
            cases h
            rfl
          | some target =>
            rw [unfollowUserTry_of_found W u f user target hu hf] at h
            split_ifs at h
            cases h
            rfl
      | undefined => simp [IdArg.isMissing] at hm
      | null => simp [IdArg.isMissing] at hm
    | undefined => simp [IdArg.isMissing] at hm
    | null => simp [IdArg.isMissing] at hm

/-- When the store rejects both saves of a `followUser` call, no user document changes. -/
theorem followUserWith_both_rejected (a b : String) (userId followId : IdArg) (W : World) :
    (followUserWith ⟨some a, some b⟩ userId followId W).2.users = W.users := by
  simp only [followUserWith, followUserTryWith, awaitSaves, World.saveFollowing,
    World.saveFollowers, World.emit]
  split_ifs
  · rfl
  · split
    · split_ifs <;> rfl
    · rfl

/-- When the store rejects both saves of an `unfollowUser` call, no user document
changes. -/
theorem unfollowUserWith_both_rejected (a b : String) (userId unfollowId : IdArg)
    (W : World) :
    (unfollowUserWith ⟨some a, some b⟩ userId unfollowId W).2.users = W.users := by
  simp only [unfollowUserWith, unfollowUserTryWith, awaitSaves, World.saveFollowing,
    World.saveFollowers, World.emit]
  split_ifs
  · rfl
  · split
    · split_ifs <;> rfl
    · rfl

/-! ## Claims on the relationship service -/

/-- C11, as stated, fails: in `duplicateWorld` every follow edge is recorded on both sides,
yet after two `followUser(u1, u2)` calls the following list of `u1` still holds `u2`
twice. -/
theorem followUser_twice_counterexample :
    mutualLists duplicateWorld.users ∧
    ((followUser (.id "u1") (.id "u2")
      (followUser (.id "u1") (.id "u2") duplicateWorld).2).2.users "u1").map
      (fun r => r.following.count "u2") = some 2 := by
  refine ⟨?_, rfl⟩
  intro a b ra rb ha hb
  simp only [duplicateWorld] at ha hb
  split_ifs at ha hb <;> simp_all
  all_goals (subst ha; subst hb; simp_all)

/-- C11, amended: in a store that satisfies the mutual-list condition, holds users `u` and
`f`, and holds `f` at most once in the following list of `u` and `u` at most once in the
followers list of `f`, two `followUser(u, f)` calls in succession leave exactly one `f`
in the following list of `u` and exactly one `u` in the followers list of `f`. -/
theorem followUser_twice_single (W : World) (u f : String) (user target : User)
    (hu : W.users u = some user) (hf : W.users f = some target)
    (hcons : mutualLists W.users)
    (h1 : user.following.count f ≤ 1) (h2 : target.followers.count u ≤ 1) :
    ∃ user2 target2,
      (followUser (.id u) (.id f) (followUser (.id u) (.id f) W).2).2.users u = some user2 ∧
      (followUser (.id u) (.id f) (followUser (.id u) (.id f) W).2).2.users f = some target2 ∧
      user2.following.count f = 1 ∧ target2.followers.count u = 1 := by
  by_cases hb : f ∈ user.following ∧ u ∈ target.followers
  · obtain ⟨_, hus, _⟩ := followUser_of_recorded W u f user target hu hf hb
    obtain ⟨_, hus2, _⟩ := followUser_of_recorded (followUser (.id u) (.id f) W).2 u f user
      target (by rw [hus]; exact hu) (by rw [hus]; exact hf) hb
    refine ⟨user, target, by rw [hus2, hus]; exact hu, by rw [hus2, hus]; exact hf, ?_, ?_⟩
    · have := List.count_pos_iff.mpr hb.1
      omega
    · have := List.count_pos_iff.mpr hb.2
      omega
  · have hiff := hcons u f user target hu hf
    have hn1 : f ∉ user.following := by tauto
    have hn2 : u ∉ target.followers := by tauto
    obtain ⟨_, hus, _⟩ := followUser_of_unrecorded W u f user target hu hf hb
    have hu1 : (followUser (.id u) (.id f) W).2.users u = some (followedDoc u f u user) := by
      rw [hus u, hu]
      rfl
    have hf1 : (followUser (.id u) (.id f) W).2.users f = some (followedDoc u f f target) := by
      rw [hus f, hf]
      rfl
    have hb1 : f ∈ (followedDoc u f u user).following ∧
        u ∈ (followedDoc u f f target).followers := by
      simp [followedDoc]
    obtain ⟨_, hus2, _⟩ := followUser_of_recorded (followUser (.id u) (.id f) W).2 u f _ _
      hu1 hf1 hb1
    refine ⟨_, _, by rw [hus2]; exact hu1, by rw [hus2]; exact hf1, ?_, ?_⟩
    · simp [followedDoc, List.count_eq_zero_of_not_mem hn1]
    · simp [followedDoc, List.count_eq_zero_of_not_mem hn2]

/-- C11 amended, at the scenario of the spec: `u1` and `u2` with empty lists. -/
theorem followUser_twice_single_witness :
    ∃ user2 target2,
      (followUser (.id "u1") (.id "u2")
        (followUser (.id "u1") (.id "u2") pairWorld).2).2.users "u1" = some user2 ∧
      (followUser (.id "u1") (.id "u2")
        (followUser (.id "u1") (.id "u2") pairWorld).2).2.users "u2" = some target2 ∧
      user2.following.count "u2" = 1 ∧ target2.followers.count "u1" = 1 :=
  followUser_twice_single pairWorld "u1" "u2" ⟨[], [], "ana"⟩ ⟨[], [], "ben"⟩ rfl rfl
    (by
      intro a b ra rb ha hb
      simp only [pairWorld] at ha hb
      split_ifs at ha hb <;> simp_all
      all_goals (subst ha; subst hb; simp_all))
    (by simp) (by simp)

/-- C12, as stated, fails: `pairWorld` satisfies the mutual-list condition, and when the
store completes `user.save()` and rejects the save of the other document the call
`followUser(u1, u2)` fails, yet `u2` is now in the following list of `u1` while `u1` is not
in the followers list of `u2`. -/
theorem mutualLists_counterexample :
    mutualLists pairWorld.users ∧
    (followUserWith ⟨none, some "write rejected"⟩ (.id "u1") (.id "u2") pairWorld).1
      = .error ⟨none, "write rejected"⟩ ∧
    ¬ mutualLists
      (followUserWith ⟨none, some "write rejected"⟩ (.id "u1") (.id "u2") pairWorld).2.users := by
  refine ⟨?_, rfl, ?_⟩
  · intro a b ra rb ha hb
    simp only [pairWorld] at ha hb
    split_ifs at ha hb <;> simp_all
    all_goals (subst ha; subst hb; simp_all)
  · intro h
    have h1 := h "u1" "u2" ⟨["u2"], [], "ana"⟩ ⟨[], [], "ben"⟩ rfl rfl
    simp at h1

/-- C12, amended: if, for all stored users A and B, B occurs in the following list of A
exactly when A occurs in the followers list of B, and the store treats the two saves of a
call alike (it completes both or rejects both), then the same condition holds in the store
after any call to `followUser` or `unfollowUser`, whether it succeeds or fails, for any
pair of arguments (absent ones and `userId = followId` included). -/
theorem mutualLists_preserved (F : SaveFaults) (W : World) (userId targetId : IdArg)
    (h : mutualLists W.users) (hF : F.user.isSome = F.target.isSome) :
    mutualLists (followUserWith F userId targetId W).2.users ∧
    mutualLists (unfollowUserWith F userId targetId W).2.users := by
  obtain ⟨fu, ft⟩ := F
  cases fu with
  | some a =>
    cases ft with
    | some b =>
      rw [followUserWith_both_rejected, unfollowUserWith_both_rejected]
      exact ⟨h, h⟩
    | none => simp at hF
  | none =>
    cases ft with
    | some b => simp at hF
    | none =>
      constructor
      · show mutualLists (followUser userId targetId W).2.users
        rcases followUser_cases userId targetId W with
          ⟨_, _, hs, _⟩ | ⟨_, _, _, _, _, _, hs, _⟩ | ⟨_, _, _, _, _, _, _, _, _, _, hs, _⟩ |
          ⟨u, f, _, _, _, _, _, _, _, _, hs, _⟩
        · rw [hs]; exact h
        · rw [hs]; exact h
        · rw [hs]; exact h
        · have : (followUser userId targetId W).2.users
              = fun k => (W.users k).map (followedDoc u f k) := funext hs
          rw [this]
          exact mutualLists_followed W.users u f h
      · show mutualLists (unfollowUser userId targetId W).2.users
        rcases unfollowUser_cases userId targetId W with
          ⟨_, _, hs, _⟩ | ⟨_, _, _, _, _, _, hs, _⟩ | ⟨_, _, _, _, _, _, _, _, _, _, hs, _⟩ |
          ⟨u, f, _, _, _, _, _, _, _, _, hs, _⟩
        · rw [hs]; exact h
        · rw [hs]; exact h
        · rw [hs]; exact h
        · have : (unfollowUser userId targetId W).2.users
              = fun k => (W.users k).map (unfollowedDoc u f k) := funext hs
          rw [this]
          exact mutualLists_unfollowed W.users u f h

/-- C12 amended, at concrete calls on `followingWorld` with both saves completing: a
self-follow of `u1` and an unfollow of `u2` by `u1`. -/
theorem mutualLists_preserved_witness :
    mutualLists (followUserWith ⟨none, none⟩ (.id "u1") (.id "u1") followingWorld).2.users ∧
    mutualLists
      (unfollowUserWith ⟨none, none⟩ (.id "u1") (.id "u2") followingWorld).2.users :=
  ⟨(mutualLists_preserved ⟨none, none⟩ followingWorld (.id "u1") (.id "u1") (by
      intro a b ra rb ha hb
      simp only [followingWorld] at ha hb
      split_ifs at ha hb <;> simp_all
      all_goals (subst ha; subst hb; simp_all)) rfl).1,
   (mutualLists_preserved ⟨none, none⟩ followingWorld (.id "u1") (.id "u2") (by
      intro a b ra rb ha hb
      simp only [followingWorld] at ha hb
      split_ifs at ha hb <;> simp_all
      all_goals (subst ha; subst hb; simp_all)) rfl).2⟩

/-- C13: whenever `unfollowUser(userId, unfollowId)` succeeds, both arguments are
identifiers of stored users `u` and `f`; the new following list of `u` is the old one
without the entries equal to `f`, the new followers list of `f` is the old one without the
entries equal to `u`, the remaining entries keep their relative order, and every other
user document is unchanged (for each identifier `k` the new document is
`unfollowedDoc u f k` of the old one). -/
theorem unfollowUser_removes (userId unfollowId : IdArg) (W : World)
    (hok : (unfollowUser userId unfollowId W).1 = .ok ()) :
    ∃ u f user target,
      userId = .id u ∧ unfollowId = .id f ∧
      W.users u = some user ∧ W.users f = some target ∧
      ((unfollowUser userId unfollowId W).2.users u).map User.following
        = some (user.following.filter (fun id => id != f)) ∧
      ((unfollowUser userId unfollowId W).2.users f).map User.followers
        = some (target.followers.filter (fun id => id != u)) ∧
      (∀ x, x ∈ user.following.filter (fun id => id != f) ↔ x ∈ user.following ∧ x ≠ f) ∧
      (∀ x, x ∈ target.followers.filter (fun id => id != u) ↔ x ∈ target.followers ∧ x ≠ u) ∧
      (user.following.filter (fun id => id != f)).Sublist user.following ∧
      (target.followers.filter (fun id => id != u)).Sublist target.followers ∧
      (∀ k, k ≠ u → k ≠ f → (unfollowUser userId unfollowId W).2.users k = W.users k) ∧
      (∀ k, (unfollowUser userId unfollowId W).2.users k
        = (W.users k).map (unfollowedDoc u f k)) := by
  rcases unfollowUser_cases userId unfollowId W with
    ⟨_, he, _⟩ | ⟨_, _, _, _, _, he, _⟩ | ⟨_, _, _, _, _, _, _, _, _, he, _⟩ |
    ⟨u, f, user, target, h1, h2, hu, hf, _, _, hs, _⟩
  · rw [he] at hok; cases hok
  · rw [he] at hok; cases hok
  · rw [he] at hok; cases hok
  · refine ⟨u, f, user, target, h1, h2, hu, hf, ?_, ?_, ?_, ?_, List.filter_sublist _,
      List.filter_sublist _, ?_, hs⟩
    · rw [hs u, hu]
      simp [unfollowedDoc]
    · rw [hs f, hf]
      simp [unfollowedDoc]
    · intro x
      simp
    · intro x
      simp
    · intro k hku hkf
      rw [hs k]
      cases W.users k <;> simp [unfollowedDoc, hku, hkf]

/-- C13 at a concrete call: `u1` unfollows `u2` in `followingWorld`. -/
theorem unfollowUser_removes_witness :
    ∃ u f user target,
      IdArg.id "u1" = .id u ∧ IdArg.id "u2" = .id f ∧
      followingWorld.users u = some user ∧ followingWorld.users f = some target ∧
      ((unfollowUser (.id "u1") (.id "u2") followingWorld).2.users u).map User.following
        = some (user.following.filter (fun id => id != f)) ∧
      ((unfollowUser (.id "u1") (.id "u2") followingWorld).2.users f).map User.followers
        = some (target.followers.filter (fun id => id != u)) ∧
      (∀ x, x ∈ user.following.filter (fun id => id != f) ↔ x ∈ user.following ∧ x ≠ f) ∧
      (∀ x, x ∈ target.followers.filter (fun id => id != u) ↔ x ∈ target.followers ∧ x ≠ u) ∧
      (user.following.filter (fun id => id != f)).Sublist user.following ∧
      (target.followers.filter (fun id => id != u)).Sublist target.followers ∧
      (∀ k, k ≠ u → k ≠ f →
        (unfollowUser (.id "u1") (.id "u2") followingWorld).2.users k
          = followingWorld.users k) ∧
      (∀ k, (unfollowUser (.id "u1") (.id "u2") followingWorld).2.users k
        = (followingWorld.users k).map (unfollowedDoc u f k)) :=
  unfollowUser_removes (.id "u1") (.id "u2") followingWorld rfl

/-- C14: when both users exist, `unfollowUser(u, f)` fails with the message "Failed to
unfollow user: You are not following them" exactly when `f` is not in the following list
of `u` and `u` is not in the followers list of `f` (the object thrown inside carries status
400); when exactly one side records the relationship the call succeeds and rewrites both
lists. -/
theorem unfollowUser_not_following (W : World) (u f : String) (user target : User)
    (hu : W.users u = some user) (hf : W.users f = some target) :
    ((unfollowUser (.id u) (.id f) W).1 = .error ⟨none, msgNotFollowing⟩ ↔
      (f ∉ user.following ∧ u ∉ target.followers)) ∧
    ((unfollowUserTry (.id u) (.id f) W).1 = .error ⟨some 400, msgNotFollowing⟩ ↔
      (f ∉ user.following ∧ u ∉ target.followers)) ∧
    (((f ∈ user.following ∧ u ∉ target.followers) ∨
        (f ∉ user.following ∧ u ∈ target.followers)) →
      (unfollowUser (.id u) (.id f) W).1 = .ok () ∧
      ((unfollowUser (.id u) (.id f) W).2.users u).map User.following
        = some (user.following.filter (fun id => id != f)) ∧
      ((unfollowUser (.id u) (.id f) W).2.users f).map User.followers
        = some (target.followers.filter (fun id => id != u)) ∧
      (unfollowUser (.id u) (.id f) W).2.trace
        = W.trace ++ [.log ("Unfollow request received by " ++ u ++ " for " ++ f),
            .findUser f, .findUser u, .saveUser u, .saveUser f,
            .log ("User " ++ u ++ " successfully unfollowed user " ++ f)]) := by
  refine ⟨?_, ?_, ?_⟩
  · by_cases hn : f ∉ user.following ∧ u ∉ target.followers
    · simp only [hn, not_false_eq_true, and_self, iff_true]
      exact (unfollowUser_of_unrecorded W u f user target hu hf hn).1
    · have hs : f ∈ user.following ∨ u ∈ target.followers := by tauto
      have hok := (unfollowUser_of_recorded W u f user target hu hf hs).1
      simp only [hn, iff_false]
      rw [hok]
      simp
  · rw [unfollowUserTry_of_found W u f user target hu hf]
    by_cases hc : (!user.following.contains f && !target.followers.contains u) = true
    · have hm : f ∉ user.following ∧ u ∉ target.followers := by simpa using hc
      simp [hc, hm]
    · have hm : ¬ (f ∉ user.following ∧ u ∉ target.followers) := by simpa using hc
      simp only [hc]
      simp [hm]
  · intro hone
    have hs : f ∈ user.following ∨ u ∈ target.followers := by tauto
    obtain ⟨hok, hus, _⟩ := unfollowUser_of_recorded W u f user target hu hf hs
    refine ⟨hok, ?_, ?_, ?_⟩
    · rw [hus u, hu]
      simp [unfollowedDoc]
    · rw [hus f, hf]
      simp [unfollowedDoc]
    · have hc : (!user.following.contains f && !target.followers.contains u) = false := by
        rcases hs with h | h <;> simp [h]
      simp only [unfollowUser, unfollowUserTry_of_found W u f user target hu hf, hc,
        rethrowAsError, Bool.false_eq_true, if_false]

/-- C14 at concrete calls: in `pairWorld` neither side records the relationship and the
call fails; in `oneSidedWorld` only one side does and the call succeeds. -/
theorem unfollowUser_not_following_witness :
    (unfollowUser (.id "u1") (.id "u2") pairWorld).1 = .error ⟨none, msgNotFollowing⟩ ∧
    (unfollowUser (.id "u1") (.id "u2") oneSidedWorld).1 = .ok () ∧
    ((unfollowUser (.id "u1") (.id "u2") oneSidedWorld).2.users "u1").map User.following
      = some [] :=
  ⟨(unfollowUser_not_following pairWorld "u1" "u2" ⟨[], [], "ana"⟩ ⟨[], [], "ben"⟩ rfl
      rfl).1.mpr ⟨by simp, by simp⟩,
   ((unfollowUser_not_following oneSidedWorld "u1" "u2" ⟨["u2"], [], "ana"⟩ ⟨[], [], "ben"⟩
      rfl rfl).2.2 (Or.inl ⟨by simp, by simp⟩)).1,
   ((unfollowUser_not_following oneSidedWorld "u1" "u2" ⟨["u2"], [], "ana"⟩ ⟨[], [], "ben"⟩
      rfl rfl).2.2 (Or.inl ⟨by simp, by simp⟩)).2.1.trans rfl⟩

/-- Removing `a` from a list without `a` that had `a` appended gives the list back. -/
theorem filter_append_self (l : List String) (a : String) (h : a ∉ l) :
    (l ++ [a]).filter (fun id => id != a) = l := by
  rw [List.filter_append]
  have h1 : l.filter (fun id => id != a) = l := by
    rw [List.filter_eq_self]
    intro x hx
    have : x ≠ a := fun hxa => h (hxa ▸ hx)
    simpa using this
  simp [h1]

/-- C15: when userId or the target identifier is missing, `followUser` and `unfollowUser`
fail with the message "Failed to follow, user id is not found" (the object thrown inside
carries status 400) before any repository access: the only call made is the logger call
that opens the method, so no `findById` and no `save` is recorded, and users and jobs are
unchanged. -/
theorem relationship_missing_id (userId targetId : IdArg) (W : World)
    (h : userId.isMissing = true ∨ targetId.isMissing = true) :
    ((followUserTry userId targetId W).1 = .error ⟨some 400, msgIdNotFound⟩ ∧
      (followUser userId targetId W).1 = .error ⟨none, msgIdNotFound⟩ ∧
      (followUser userId targetId W).2.trace = W.trace ++
        [.log ("Follow request received by " ++ userId.show ++ " for " ++ targetId.show)] ∧
      (followUser userId targetId W).2.users = W.users ∧
      (followUser userId targetId W).2.jobs = W.jobs) ∧
    ((unfollowUserTry userId targetId W).1 = .error ⟨some 400, msgIdNotFound⟩ ∧
      (unfollowUser userId targetId W).1 = .error ⟨none, msgIdNotFound⟩ ∧
      (unfollowUser userId targetId W).2.trace = W.trace ++
        [.log ("Unfollow request received by " ++ userId.show ++ " for " ++ targetId.show)] ∧
      (unfollowUser userId targetId W).2.users = W.users ∧
      (unfollowUser userId targetId W).2.jobs = W.jobs) := by
  constructor
  · simp [followUser, followUserTry_of_missing userId targetId W h, rethrowAsError, World.emit]
  · simp [unfollowUser, unfollowUserTry_of_missing userId targetId W h, rethrowAsError,
      World.emit]

/-- C15 at concrete calls: the acting identifier is `undefined`. -/
theorem relationship_missing_id_witness :
    (followUser .undefined (.id "u2") pairWorld).1 = .error ⟨none, msgIdNotFound⟩ ∧
    (followUser .undefined (.id "u2") pairWorld).2.trace
      = pairWorld.trace ++ [.log "Follow request received by undefined for u2"] ∧
    (unfollowUser .undefined (.id "u2") pairWorld).1 = .error ⟨none, msgIdNotFound⟩ :=
  ⟨(relationship_missing_id .undefined (.id "u2") pairWorld (Or.inl rfl)).1.2.1,
   (relationship_missing_id .undefined (.id "u2") pairWorld (Or.inl rfl)).1.2.2.1.trans rfl,
   (relationship_missing_id .undefined (.id "u2") pairWorld (Or.inl rfl)).2.2.1⟩

/-- C16: every error that `followUser` or `unfollowUser` raises to the caller has no status
and carries exactly the message of the object thrown inside the `try` block (which had
status 400); the rewrap sends two inner errors with the same message and different
statuses to the same error. -/
theorem relationship_errors_generic (userId targetId : IdArg) (W : World) (e : Thrown) :
    ((followUser userId targetId W).1 = .error e →
      e.status = none ∧
      ∃ inner, (followUserTry userId targetId W).1 = .error inner ∧
        inner.status = some 400 ∧ e.message = inner.message) ∧
    ((unfollowUser userId targetId W).1 = .error e →
      e.status = none ∧
      ∃ inner, (unfollowUserTry userId targetId W).1 = .error inner ∧
        inner.status = some 400 ∧ e.message = inner.message) ∧
    (∀ (s1 s2 : Option Nat) (m : String) (W0 : World),
      rethrowAsError (.error ⟨s1, m⟩, W0) = rethrowAsError (.error ⟨s2, m⟩, W0)) := by
  refine ⟨?_, ?_, ?_⟩
  · intro he
    unfold followUser at he
    have h400 := followUserTry_error_status userId targetId W
    cases hr : followUserTry userId targetId W with
    | mk r W1 =>
      rw [hr] at he h400
      cases r with
      | error inner =>
        simp only [rethrowAsError, Except.error.injEq] at he
        subst he
        exact ⟨rfl, inner, rfl, h400 inner rfl, rfl⟩
      | ok v => simp [rethrowAsError] at he
  · intro he
    unfold unfollowUser at he
    have h400 := unfollowUserTry_error_status userId targetId W
    cases hr : unfollowUserTry userId targetId W with
    | mk r W1 =>
      rw [hr] at he h400
      cases r with
      | error inner =>
        simp only [rethrowAsError, Except.error.injEq] at he
        subst he
        exact ⟨rfl, inner, rfl, h400 inner rfl, rfl⟩
      | ok v => simp [rethrowAsError] at he
  · intro s1 s2 m W0
    rfl

/-- C16 at a concrete call: the "Already following" failure reaches the caller without
its status 400. -/
theorem relationship_errors_generic_witness :
    (⟨none, msgAlreadyFollowing⟩ : Thrown).status = none ∧
    ∃ inner, (followUserTry (.id "u1") (.id "u2") followingWorld).1 = .error inner ∧
      inner.status = some 400 ∧
      (⟨none, msgAlreadyFollowing⟩ : Thrown).message = inner.message :=
  (relationship_errors_generic (.id "u1") (.id "u2") followingWorld
    ⟨none, msgAlreadyFollowing⟩).1 rfl

/-- C18: when both users exist and exactly one side records the relationship,
`followUser(u, f)` succeeds and appends `f` to the following list of `u` and `u` to the
followers list of `f`; each list then holds the appended identifier once more than before,
so the list that already held it holds it at least twice. -/
theorem followUser_one_sided (W : World) (u f : String) (user target : User)
    (hu : W.users u = some user) (hf : W.users f = some target)
    (hone : (f ∈ user.following ∧ u ∉ target.followers) ∨
      (f ∉ user.following ∧ u ∈ target.followers)) :
    (followUser (.id u) (.id f) W).1 = .ok () ∧
    ∃ user2 target2,
      (followUser (.id u) (.id f) W).2.users u = some user2 ∧
      (followUser (.id u) (.id f) W).2.users f = some target2 ∧
      user2.following = user.following ++ [f] ∧
      target2.followers = target.followers ++ [u] ∧
      user2.following.count f = user.following.count f + 1 ∧
      target2.followers.count u = target.followers.count u + 1 ∧
      (f ∈ user.following → 2 ≤ user2.following.count f) ∧
      (u ∈ target.followers → 2 ≤ target2.followers.count u) := by
  have hnot : ¬ (f ∈ user.following ∧ u ∈ target.followers) := by tauto
  obtain ⟨hok, hus, _⟩ := followUser_of_unrecorded W u f user target hu hf hnot
  refine ⟨hok, followedDoc u f u user, followedDoc u f f target, ?_, ?_, ?_, ?_, ?_, ?_, ?_, ?_⟩
  · rw [hus u, hu]; rfl
  · rw [hus f, hf]; rfl
  · simp [followedDoc]
  · simp [followedDoc]
  · simp [followedDoc]
  · simp [followedDoc]
  · intro hmem
    have hpos := List.count_pos_iff.mpr hmem
    have hcount : (followedDoc u f u user).following.count f
        = user.following.count f + 1 := by simp [followedDoc]
    omega
  · intro hmem
    have hpos := List.count_pos_iff.mpr hmem
    have hcount : (followedDoc u f f target).followers.count u
        = target.followers.count u + 1 := by simp [followedDoc]
    omega

/-- C18 at a concrete call: in `oneSidedWorld` the following list of `u1` becomes
`[u2, u2]`. -/
theorem followUser_one_sided_witness :
    (followUser (.id "u1") (.id "u2") oneSidedWorld).1 = .ok () ∧
    (followUser (.id "u1") (.id "u2") oneSidedWorld).2.users "u1"
      = some ⟨["u2", "u2"], [], "ana"⟩ ∧
    (followUser (.id "u1") (.id "u2") oneSidedWorld).2.users "u2"
      = some ⟨[], ["u1"], "ben"⟩ := by
  have h := followUser_one_sided oneSidedWorld "u1" "u2" ⟨["u2"], [], "ana"⟩ ⟨[], [], "ben"⟩
    rfl rfl (Or.inl ⟨by simp, by simp⟩)
  exact ⟨h.1, rfl, rfl⟩

/-- C19: when users `u` and `f` exist, `f` is not in the following list of `u` and `u` is
not in the followers list of `f`, `followUser(u, f)` succeeds, the `unfollowUser(u, f)`
that follows it succeeds, and the users and the jobs of the store are then exactly the
original ones. This holds for distinct users and also when `u = f`. -/
theorem follow_then_unfollow (W : World) (u f : String) (user target : User)
    (hu : W.users u = some user) (hf : W.users f = some target)
    (h1 : f ∉ user.following) (h2 : u ∉ target.followers) :
    (followUser (.id u) (.id f) W).1 = .ok () ∧
    (unfollowUser (.id u) (.id f) (followUser (.id u) (.id f) W).2).1 = .ok () ∧
    (unfollowUser (.id u) (.id f) (followUser (.id u) (.id f) W).2).2.users = W.users ∧
    (unfollowUser (.id u) (.id f) (followUser (.id u) (.id f) W).2).2.jobs = W.jobs := by
  have hnot : ¬ (f ∈ user.following ∧ u ∈ target.followers) := by tauto
  obtain ⟨hok, hus, hjobs⟩ := followUser_of_unrecorded W u f user target hu hf hnot
  have hu1 : (followUser (.id u) (.id f) W).2.users u = some (followedDoc u f u user) := by
    rw [hus u, hu]; rfl
  have hf1 : (followUser (.id u) (.id f) W).2.users f = some (followedDoc u f f target) := by
    rw [hus f, hf]; rfl
  have hrec : f ∈ (followedDoc u f u user).following ∨
      u ∈ (followedDoc u f f target).followers := by
    left
    simp [followedDoc]
  obtain ⟨hok2, hus2, hjobs2⟩ := unfollowUser_of_recorded (followUser (.id u) (.id f) W).2 u f
    _ _ hu1 hf1 hrec
  refine ⟨hok, hok2, ?_, by rw [hjobs2, hjobs]⟩
  funext k
  rw [hus2 k, hus k]
  cases hk : W.users k with
  | none => rfl
  | some r =>
    simp only [Option.map_some']
    congr 1
    have hfol : k = u → f ∉ r.following := by
      intro hku
      subst hku
      rw [hu] at hk
      cases hk
      exact h1
    have hfers : k = f → u ∉ r.followers := by
      intro hkf
      subst hkf
      rw [hf] at hk
      cases hk
      exact h2
    cases r with
    | mk following followers profile =>
      simp only [followedDoc, unfollowedDoc, User.mk.injEq, and_true]
      constructor
      · by_cases hku : k = u
        · simp only [hku, if_true]
          exact filter_append_self _ _ (hfol hku)
        · simp [hku]
      · by_cases hkf : k = f
        · simp only [hkf, if_true]
          exact filter_append_self _ _ (hfers hkf)
        · simp [hkf]

/-- C19 at the scenario of the spec: `u1` follows and then unfollows `u2` in
`pairWorld`. -/
theorem follow_then_unfollow_witness :
    (unfollowUser (.id "u1") (.id "u2") (followUser (.id "u1") (.id "u2") pairWorld).2).1
      = .ok () ∧
    (unfollowUser (.id "u1") (.id "u2")
      (followUser (.id "u1") (.id "u2") pairWorld).2).2.users = pairWorld.users := by
  have h := follow_then_unfollow pairWorld "u1" "u2" ⟨[], [], "ana"⟩ ⟨[], [], "ben"⟩ rfl rfl
    (by simp) (by simp)
  exact ⟨h.2.1, h.2.2.1⟩

/-! ## Claims on the order of validation and on maxApplicants -/

/-- For a string the title rule of the spec is the title condition of line 19. -/
theorem titleInvalid_eq_rule (V : Validator) (s : String) :
    titleInvalid V (.str s) = .ok (titleRuleViolated V (.str s)) := by
  simp [titleInvalid, titleRuleViolated, Validator.isLengthCall, JSVal.typeof]

/-- For a string the description rule of the spec is the description condition of
line 25. -/
theorem descriptionInvalid_eq_rule (V : Validator) (s : String) :
    descriptionInvalid V (.str s) = .ok (descriptionRuleViolated V (.str s)) := by
  simp [descriptionInvalid, descriptionRuleViolated, Validator.isLengthCall, JSVal.typeof]

/-- When the title and the description are strings, the outcome of `createJob` is the
error of the earliest violated rule in the order missing-fields, title, description,
skillsRequired, deadline, userId format, maxApplicants, type, user existence (one error,
never a collection), and success when no rule is violated; when any field validation
fails the world is left as it was, so the user lookup is not performed, and when all pass
the lookup is the first call made. -/
theorem createJob_fail_fast (V : Validator) (R : Runtime) (t d : String)
    (skillsRequired deadline maxApplicants type userId : JSVal) (W : World) :
    (createJob V R (.str t) (.str d) skillsRequired deadline maxApplicants type userId W).1
      = raiseOrReturn (earliestViolation V R (.str t) (.str d) skillsRequired deadline
          maxApplicants type userId W) ∧
    (¬ fieldsValid V R (.str t) (.str d) skillsRequired deadline maxApplicants type userId →
      (createJob V R (.str t) (.str d) skillsRequired deadline maxApplicants type userId W).2
        = W) ∧
    (fieldsValid V R (.str t) (.str d) skillsRequired deadline maxApplicants type userId →
      ∃ rest, (createJob V R (.str t) (.str d) skillsRequired deadline maxApplicants type
        userId W).2.trace = W.trace ++ .findUser (jsToString R userId) :: rest) := by
  have et := titleInvalid_eq_rule V t
  have ed := descriptionInvalid_eq_rule V d
  rcases createJob_cases V R (.str t) (.str d) skillsRequired deadline maxApplicants type
    userId W
    with ⟨hx, hc⟩ | ⟨e1, hx, hc⟩ | ⟨hx, hc⟩ | ⟨e1, hx, hc⟩ | ⟨hx, hc⟩ | ⟨hx, hc⟩ | ⟨hx, hc⟩ |
      ⟨hx, hc⟩ | ⟨hx, hc⟩ | ⟨hx, hc⟩ | ⟨hx, hc⟩ | ⟨hx, hc⟩
  · rw [hc]
    simp [earliestViolation, ruleViolations, raiseOrReturn, fieldsValid, hx]
  · rw [et] at hx
    cases hx.2
  · rw [hc]
    rw [et] at hx
    have h2 : titleRuleViolated V (.str t) = true := by simpa using hx.2
    simp [earliestViolation, ruleViolations, raiseOrReturn, fieldsValid, hx.1, h2, et]
  · rw [ed] at hx
    cases hx.2.2
  · rw [hc]
    rw [et, ed] at hx
    have h2 : titleRuleViolated V (.str t) = false := by simpa using hx.2.1
    have h3 : descriptionRuleViolated V (.str d) = true := by simpa using hx.2.2
    simp [earliestViolation, ruleViolations, raiseOrReturn, fieldsValid, hx.1, h2, h3, et, ed]
  all_goals
    rw [hc]
    try rw [fieldsValid] at hx
    rw [et, ed] at hx
  · have h2 : titleRuleViolated V (.str t) = false := by simpa using hx.2.1
    have h3 : descriptionRuleViolated V (.str d) = false := by simpa using hx.2.2.1
    simp [earliestViolation, ruleViolations, raiseOrReturn, fieldsValid, hx, h2, h3, et, ed]
  · have h2 : titleRuleViolated V (.str t) = false := by simpa using hx.2.1
    have h3 : descriptionRuleViolated V (.str d) = false := by simpa using hx.2.2.1
    simp [earliestViolation, ruleViolations, raiseOrReturn, fieldsValid, hx, h2, h3, et, ed]
  · have h2 : titleRuleViolated V (.str t) = false := by simpa using hx.2.1
    have h3 : descriptionRuleViolated V (.str d) = false := by simpa using hx.2.2.1
    simp [earliestViolation, ruleViolations, raiseOrReturn, fieldsValid, hx, h2, h3, et, ed]
  · have h2 : titleRuleViolated V (.str t) = false := by simpa using hx.2.1
    have h3 : descriptionRuleViolated V (.str d) = false := by simpa using hx.2.2.1
    simp [earliestViolation, ruleViolations, raiseOrReturn, fieldsValid, hx, h2, h3, et, ed]
  · have h2 : titleRuleViolated V (.str t) = false := by simpa using hx.2.1
    have h3 : descriptionRuleViolated V (.str d) = false := by simpa using hx.2.2.1
    simp [earliestViolation, ruleViolations, raiseOrReturn, fieldsValid, hx, h2, h3, et, ed]
  · have h2 : titleRuleViolated V (.str t) = false := by simpa using hx.1.2.1
    have h3 : descriptionRuleViolated V (.str d) = false := by simpa using hx.1.2.2.1
    simp [earliestViolation, ruleViolations, raiseOrReturn, fieldsValid, hx, h2, h3, et, ed,
      World.emit]
  · have h2 : titleRuleViolated V (.str t) = false := by simpa using hx.1.2.1
    have h3 : descriptionRuleViolated V (.str d) = false := by simpa using hx.1.2.2.1
    obtain ⟨r, hr⟩ := Option.isSome_iff_exists.mp hx.2
    simp [earliestViolation, ruleViolations, raiseOrReturn, fieldsValid, hx, h2, h3, et, ed,
      hr]

/-- C17: the code departs from the claim. The call with the numeric title 12345 and the type
"Gardening" violates the title rule and the type rule; the earliest violated rule is the
title rule, whose error is status 400 with the title message, but `createJob` raises the
`TypeError` of `validator.isLength`, which has no status: line 19 calls
`validator.isLength` on the title before its `typeof` test. -/
theorem createJob_fail_fast_type_error :
    earliestViolation (validatorJs sampleIsoDates) sampleRuntime (.num 12345 0)
      (.str "Design a logo for us") (.arr [.str "Adobe Illustrator"]) (.str "2030-01-01")
      (.num 3 0) (.str "Gardening") (.str "64b7f0c2a1d3e4f5a6b7c8d9") sampleWorld
      = some ⟨some 400, msgTitle⟩ ∧
    typeInvalid (.str "Gardening") = true ∧
    createJob (validatorJs sampleIsoDates) sampleRuntime (.num 12345 0)
      (.str "Design a logo for us") (.arr [.str "Adobe Illustrator"]) (.str "2030-01-01")
      (.num 3 0) (.str "Gardening") (.str "64b7f0c2a1d3e4f5a6b7c8d9") sampleWorld
      = (.error ⟨none, "Expected a string but received a Number"⟩, sampleWorld) ∧
    (createJob (validatorJs sampleIsoDates) sampleRuntime (.num 12345 0)
      (.str "Design a logo for us") (.arr [.str "Adobe Illustrator"]) (.str "2030-01-01")
      (.num 3 0) (.str "Gardening") (.str "64b7f0c2a1d3e4f5a6b7c8d9") sampleWorld).1
      ≠ raiseOrReturn (earliestViolation (validatorJs sampleIsoDates) sampleRuntime
          (.num 12345 0) (.str "Design a logo for us") (.arr [.str "Adobe Illustrator"])
          (.str "2030-01-01") (.num 3 0) (.str "Gardening")
          (.str "64b7f0c2a1d3e4f5a6b7c8d9") sampleWorld) := by
  have h := createJob_non_string_title (validatorJs sampleIsoDates) sampleRuntime
    (.num 12345 0) (.str "Design a logo for us") (.arr [.str "Adobe Illustrator"])
    (.str "2030-01-01") (.num 3 0) (.str "Gardening")
    (.str "64b7f0c2a1d3e4f5a6b7c8d9") sampleWorld rfl (by decide)
  have he : earliestViolation (validatorJs sampleIsoDates) sampleRuntime (.num 12345 0)
      (.str "Design a logo for us") (.arr [.str "Adobe Illustrator"]) (.str "2030-01-01")
      (.num 3 0) (.str "Gardening") (.str "64b7f0c2a1d3e4f5a6b7c8d9") sampleWorld
      = some ⟨some 400, msgTitle⟩ := rfl
  refine ⟨he, rfl, h.trans rfl, ?_⟩
  rw [h, he]
  simp [raiseOrReturn]

/-- C20: two successful `createJob` calls that differ only in maxApplicants leave the same
world, in particular the same persisted jobs; the job appended is the record of title,
description, skillsRequired, deadline, postedBy and type, which has no maxApplicants
field. -/
theorem createJob_ignores_maxApplicants (V : Validator) (R : Runtime)
    (title description skillsRequired deadline maxApplicants1 maxApplicants2 type
      userId : JSVal) (W : World)
    (hok1 : (createJob V R title description skillsRequired deadline maxApplicants1 type userId
      W).1 = .ok ())
    (hok2 : (createJob V R title description skillsRequired deadline maxApplicants2 type userId
      W).1 = .ok ()) :
    (createJob V R title description skillsRequired deadline maxApplicants1 type userId W).2
      = (createJob V R title description skillsRequired deadline maxApplicants2 type userId
          W).2 ∧
    (createJob V R title description skillsRequired deadline maxApplicants1 type userId
      W).2.jobs
      = (createJob V R title description skillsRequired deadline maxApplicants2 type userId
          W).2.jobs ∧
    (createJob V R title description skillsRequired deadline maxApplicants1 type userId
      W).2.jobs
      = W.jobs ++ [{ title := V.escape title
                     description := V.escape description
                     skillsRequired := skillsRequired
                     deadline := R.newDate deadline
                     postedBy := userId
                     type := type }] := by
  have key : ∀ m : JSVal,
      (createJob V R title description skillsRequired deadline m type userId W).1 = .ok () →
      (createJob V R title description skillsRequired deadline m type userId W).2
        = { users := W.users
            jobs := W.jobs ++ [{ title := V.escape title
                                 description := V.escape description
                                 skillsRequired := skillsRequired
                                 deadline := R.newDate deadline
                                 postedBy := userId
                                 type := type }]
            trace := W.trace ++ [.findUser (jsToString R userId), .saveJob,
              .log ("User " ++ jsToString R userId ++ " successfully posted a job")] } := by
    intro m hok
    rcases createJob_cases V R title description skillsRequired deadline m type userId W
      with ⟨hx, hc⟩ | ⟨e1, hx, hc⟩ | ⟨hx, hc⟩ | ⟨e1, hx, hc⟩ | ⟨hx, hc⟩ | ⟨hx, hc⟩ |
        ⟨hx, hc⟩ | ⟨hx, hc⟩ | ⟨hx, hc⟩ | ⟨hx, hc⟩ | ⟨hx, hc⟩ | ⟨hx, hc⟩
    all_goals rw [hc] at hok ⊢
    all_goals simp at hok
  rw [key maxApplicants1 hok1, key maxApplicants2 hok2]
  exact ⟨rfl, rfl, rfl⟩

/-- C20 at concrete calls: maxApplicants 3 and maxApplicants 50. -/
theorem createJob_ignores_maxApplicants_witness :
    (createJob (validatorJs sampleIsoDates) sampleRuntime (.str "Logo designer")
      (.str "Design a logo for us") (.arr [.str "Adobe Illustrator"]) (.str "2030-01-01")
      (.num 3 0) (.str "Sales & Marketing") (.str "64b7f0c2a1d3e4f5a6b7c8d9") sampleWorld).2
      = (createJob (validatorJs sampleIsoDates) sampleRuntime (.str "Logo designer")
          (.str "Design a logo for us") (.arr [.str "Adobe Illustrator"]) (.str "2030-01-01")
          (.num 50 0) (.str "Sales & Marketing") (.str "64b7f0c2a1d3e4f5a6b7c8d9")
          sampleWorld).2 :=
  (createJob_ignores_maxApplicants (validatorJs sampleIsoDates) sampleRuntime
    (.str "Logo designer") (.str "Design a logo for us") (.arr [.str "Adobe Illustrator"])
    (.str "2030-01-01") (.num 3 0) (.num 50 0) (.str "Sales & Marketing")
    (.str "64b7f0c2a1d3e4f5a6b7c8d9") sampleWorld rfl rfl).1

end Lumikha
